import Mathlib

/-!
# FlvStream: the pull-driven delivery channel of the FLV media source

A shallow embedding of `FlvStream.cpp`.  Every member function of the stream
becomes a function on an explicit channel state (`FlvStream`) and an explicit
record of the outside world (`World`).  The collaborators of the stream (its
event queue, the owning media source, the sample's attribute store, the list
node allocator) are not part of the file; each call to one of them is recorded
in `World.log` and answered by an oracle `Env`, so that every failure pattern
of the collaborators is covered by quantifying over `Env`.

A call through a null `event_queue` pointer has no defined behaviour in the
source; the embedding returns `none` for it.
-/

namespace FlvSource

/-! ## Result codes -/

/-- HRESULT is a signed 32-bit code; negative values are failures. -/
abbrev HRESULT := Int

/-- The `FAILED(hr)` test of the platform headers: `hr < 0`. -/
def FAILED (hr : HRESULT) : Bool := decide (hr < 0)

/-- The `SUCCEEDED(hr)` test of the platform headers: `hr >= 0`. -/
def SUCCEEDED (hr : HRESULT) : Bool := decide (0 ≤ hr)

/-- Success. -/
def S_OK : HRESULT := 0

/-- Null output pointer, 0x80004003. -/
def E_POINTER : HRESULT := -2147467261

/-- Unspecified failure, 0x80004005 (used only as a sample collaborator failure). -/
def E_FAIL : HRESULT := -2147467259

/-- Catastrophic failure, 0x8000FFFF. -/
def E_UNEXPECTED : HRESULT := -2147418113

/-- The request is invalid in the current state, 0xC00D36B2. -/
def MF_E_INVALIDREQUEST : HRESULT := -1072875854

/-- The object has been shut down, 0xC00D3E85. -/
def MF_E_SHUTDOWN : HRESULT := -1072873851

/-- The end of the stream was reached, 0xC00D3E84. -/
def MF_E_END_OF_STREAM : HRESULT := -1072873852

/-! ## Data model -/

/-- Lifecycle state `m_state` of the stream. -/
inductive StreamState where
  | STATE_STOPPED
  | STATE_PAUSED
  | STATE_STARTED
  | STATE_SHUTDOWN
  deriving DecidableEq, Repr

/-- The media event types the stream names, and any other type a caller of
`QueueEvent` may pass. -/
inductive MediaEventType where
  | MEError
  | MEStreamStarted
  | MEStreamPaused
  | MEStreamStopped
  | MEMediaSample
  | MEEndOfStream
  | MEOther (code : Nat)
  deriving DecidableEq, Repr

/-- One call made by the stream on a collaborator, with its arguments.
Samples, tokens and variants are opaque handles. -/
inductive Call where
  /-- `pSample->SetUnknown(MFSampleExtension_Token, pToken)`. -/
  | SetUnknown (pSample : Nat) (pToken : Nat)
  /-- `event_queue->QueueEventParamUnk(met, GUID_NULL, S_OK, pSample)`. -/
  | QueueEventParamUnk (met : MediaEventType) (pSample : Nat)
  /-- `event_queue->QueueEventParamVar(met, guid, hrStatus, pvValue)`. -/
  | QueueEventParamVar (met : MediaEventType) (hrStatus : HRESULT) (pvValue : Option Nat)
  /-- `event_queue->Shutdown()`. -/
  | EventQueueShutdown
  /-- `event_queue->BeginGetEvent(pCallback, punkState)`. -/
  | EventQueueBeginGetEvent
  /-- `event_queue->EndGetEvent(pResult, ppEvent)`. -/
  | EventQueueEndGetEvent
  /-- `pQueue->GetEvent(dwFlags, ppEvent)`. -/
  | EventQueueGetEvent (dwFlags : Nat)
  /-- `m_pSource->QueueEvent(met, GUID_NULL, hrStatus, NULL)`: the error sink of the source. -/
  | SourceQueueEvent (met : MediaEventType) (hrStatus : HRESULT)
  /-- `m_pSource->AsyncEndOfStream()`. -/
  | AsyncEndOfStream
  /-- `m_pSource->AsyncRequestData()`. -/
  | AsyncRequestData
  /-- `m_pSource->QueryInterface(IID_PPV_ARGS(ppMediaSource))`. -/
  | SourceQueryInterface
  /-- `MFCreateEventQueue(&event_queue)`. -/
  | MFCreateEventQueue
  deriving DecidableEq, Repr

/-- The world outside the stream: `tick` counts the fallible outside calls made
so far (collaborator calls and list insertions), `log` lists the collaborator
calls in the order they were made. -/
structure World where
  tick : Nat
  log : List Call
  deriving DecidableEq, Repr

/-- The behaviour of the collaborators: the code returned by the list
insertion made at a given tick, and the code returned by a collaborator call
made at a given tick. -/
structure Env where
  alloc : Nat → HRESULT
  reply : Nat → Call → HRESULT

/-- The fields of `FlvStream`.  `m_Requests` holds the request tokens (a token
may be NULL), `m_Samples` the queued samples; `event_queue` and
`stream_descriptor` are pointers that may be null. -/
structure FlvStream where
  m_state : StreamState
  activated : Bool
  eos : Bool
  m_Requests : List (Option Nat)
  m_Samples : List Nat
  event_queue : Option Nat
  stream_descriptor : Option Nat
  deriving DecidableEq, Repr

/-- What a member function leaves behind: its return code, the stream and the
world; `none` when it dereferenced a null `event_queue`. -/
abbrev Outcome := Option (HRESULT × FlvStream × World)

/-! ## Collaborator calls and the list type -/

/-- Make a collaborator call: log it, consume one tick, return the oracle's code. -/
def invoke (env : Env) (c : Call) (w : World) : HRESULT × World :=
  (env.reply w.tick c, { tick := w.tick + 1, log := w.log ++ [c] })

/-- Make a call through the `event_queue` pointer `q`; a null pointer faults. -/
def sinkInvoke (env : Env) (q : Option Nat) (c : Call) (w : World) :
    Option (HRESULT × World) :=
  match q with
  | none => none
  | some _ => some (invoke env c w)

/-- Modelled from the spec: `InsertBack` of the list type of `m_Samples` and
`m_Requests` (declared in `FlvSource.h`, not part of this file).  The append
can fail; on failure the list is unchanged, on success the item is the new
last element and the code is `S_OK`. -/
def InsertBack {α : Type} (env : Env) (xs : List α) (x : α) (w : World) :
    HRESULT × List α × World :=
  let hr := env.alloc w.tick
  if FAILED hr then (hr, xs, { w with tick := w.tick + 1 })
  else (S_OK, xs ++ [x], { w with tick := w.tick + 1 })

/-- Modelled from the spec: `CheckShutdown` (declared in `FlvSource.h`):
fails with `MF_E_SHUTDOWN` exactly when the state is `STATE_SHUTDOWN`. -/
def CheckShutdown (s : FlvStream) : HRESULT :=
  if s.m_state = .STATE_SHUTDOWN then MF_E_SHUTDOWN else S_OK

/-- Modelled from the spec: `IsActive` (declared in `FlvSource.h`): the
`activated` flag. -/
def IsActive (s : FlvStream) : Bool := s.activated

/-- How many samples each stream tries to hold in its queue. -/
def SAMPLE_QUEUE : Nat := 2

/-! ## Member functions -/

/-- `FlvStream::NeedsData`. -/
def NeedsData (s : FlvStream) : Bool :=
  s.activated && !s.eos && decide (s.m_Samples.length < SAMPLE_QUEUE)

/-- The result of the `while` loop of `DispatchSamples`: whether it left by
`goto done`, the value of `hr`, the two queues and the world. -/
structure LoopResult where
  aborted : Bool
  hr : HRESULT
  samples : List Nat
  requests : List (Option Nat)
  world : World
  deriving DecidableEq, Repr

/-- The `while (!m_Samples.IsEmpty() && !m_Requests.IsEmpty())` loop of
`DispatchSamples`.  Each iteration removes the front sample and the front
token (both removals succeed), sets a non-null token on the sample, and queues
`MEMediaSample`; a failure leaves by `goto done`. -/
def dispatchLoop (env : Env) (q : Option Nat) :
    List Nat → List (Option Nat) → HRESULT → World → Option LoopResult
  | pSample :: samples, pToken :: requests, _, w =>
    let r1 : HRESULT × World :=
      match pToken with
      | some tok => invoke env (.SetUnknown pSample tok) w
      | none => (S_OK, w)
    if FAILED r1.1 then some ⟨true, r1.1, samples, requests, r1.2⟩
    else
      match sinkInvoke env q (.QueueEventParamUnk .MEMediaSample pSample) r1.2 with
      | none => none
      | some r2 =>
        if FAILED r2.1 then some ⟨true, r2.1, samples, requests, r2.2⟩
        else dispatchLoop env q samples requests r2.1 r2.2
  | samples, requests, hr, w => some ⟨false, hr, samples, requests, w⟩

/-- The block after the loop of `DispatchSamples` (skipped by `goto done`):
end-of-stream event and `AsyncEndOfStream`, or else `AsyncRequestData`. -/
def dispatchTerminal (env : Env) (s : FlvStream) (hr : HRESULT) (w : World) :
    Option (HRESULT × World) :=
  if s.m_Samples.isEmpty && s.eos then
    match sinkInvoke env s.event_queue (.QueueEventParamVar .MEEndOfStream S_OK none) w with
    | none => none
    | some r => some (invoke env .AsyncEndOfStream r.2)
  else if NeedsData s then some (invoke env .AsyncRequestData w)
  else some (hr, w)

/-- The `done:` label of `DispatchSamples`: report a failure to the source
unless the stream is shut down; the result of that call is discarded. -/
def dispatchDone (env : Env) (s : FlvStream) (hr : HRESULT) (w : World) : World :=
  if FAILED hr && decide (s.m_state ≠ .STATE_SHUTDOWN) then
    (invoke env (.SourceQueueEvent .MEError hr) w).2
  else w

/-- `FlvStream::DispatchSamples`. -/
def DispatchSamples (env : Env) (s : FlvStream) (w : World) : Outcome :=
  if s.m_state ≠ .STATE_STARTED then some (S_OK, s, w)
  else
    match dispatchLoop env s.event_queue s.m_Samples s.m_Requests S_OK w with
    | none => none
    | some r =>
      let s1 : FlvStream := { s with m_Samples := r.samples, m_Requests := r.requests }
      let t : Option (HRESULT × World) :=
        if r.aborted then some (r.hr, r.world)
        else dispatchTerminal env s1 r.hr r.world
      match t with
      | none => none
      | some (hr, w1) => some (S_OK, s1, dispatchDone env s1 hr w1)

/-- The `done:` label of `RequestSample`: on failure, unless shut down, queue
`MEError` on the source and return the result of that call. -/
def requestDone (env : Env) (s : FlvStream) (hr : HRESULT) (w : World) :
    HRESULT × FlvStream × World :=
  if FAILED hr && decide (s.m_state ≠ .STATE_SHUTDOWN) then
    let r := invoke env (.SourceQueueEvent .MEError hr) w
    (r.1, s, r.2)
  else (hr, s, w)

/-- `FlvStream::RequestSample`. -/
def RequestSample (env : Env) (s : FlvStream) (w : World) (pToken : Option Nat) : Outcome :=
  let hr := CheckShutdown s
  if FAILED hr then some (requestDone env s hr w)
  else if s.m_state = .STATE_STOPPED then some (requestDone env s MF_E_INVALIDREQUEST w)
  else if !IsActive s then some (requestDone env s MF_E_INVALIDREQUEST w)
  else if s.eos && s.m_Samples.isEmpty then some (requestDone env s MF_E_END_OF_STREAM w)
  else
    let ins := InsertBack env s.m_Requests pToken w
    if FAILED ins.1 then some (requestDone env s ins.1 ins.2.2)
    else
      match DispatchSamples env { s with m_Requests := ins.2.1 } ins.2.2 with
      | none => none
      | some (hr1, s1, w1) => some (requestDone env s1 hr1 w1)

/-- The constructor: state stopped, inactive, not at end of stream, empty
queues, the given descriptor, and the event queue made by `MFCreateEventQueue`
(left null when that call fails).  The code of the call is the `hr` output. -/
def construct (env : Env) (pSD : Nat) (w : World) : HRESULT × FlvStream × World :=
  let r := invoke env .MFCreateEventQueue w
  (r.1,
   { m_state := .STATE_STOPPED, activated := false, eos := false,
     m_Requests := [], m_Samples := [],
     event_queue := if FAILED r.1 then none else some 0,
     stream_descriptor := some pSD },
   r.2)

/-- `FlvStream::Activate`. -/
def Activate (s : FlvStream) (w : World) (act : Bool) : HRESULT × FlvStream × World :=
  if act = s.activated then (S_OK, s, w)
  else
    let s1 : FlvStream := { s with activated := act }
    if !act then (S_OK, { s1 with m_Samples := [], m_Requests := [] }, w)
    else (S_OK, s1, w)

/-- `FlvStream::QueueEvent`. -/
def QueueEvent (env : Env) (s : FlvStream) (w : World) (met : MediaEventType)
    (hrStatus : HRESULT) (pvValue : Option Nat) : Outcome :=
  let hr := CheckShutdown s
  if SUCCEEDED hr then
    match sinkInvoke env s.event_queue (.QueueEventParamVar met hrStatus pvValue) w with
    | none => none
    | some r => some (r.1, s, r.2)
  else some (hr, s, w)

/-- `FlvStream::Start`. -/
def Start (env : Env) (s : FlvStream) (w : World) (varStart : Option Nat) : Outcome :=
  let hr := CheckShutdown s
  if SUCCEEDED hr then
    match QueueEvent env s w .MEStreamStarted S_OK varStart with
    | none => none
    | some (hr1, s1, w1) =>
      if SUCCEEDED hr1 then
        DispatchSamples env { s1 with m_state := .STATE_STARTED } w1
      else some (hr1, s1, w1)
  else some (hr, s, w)

/-- `FlvStream::Pause`. -/
def Pause (env : Env) (s : FlvStream) (w : World) : Outcome :=
  let hr := CheckShutdown s
  if SUCCEEDED hr then
    QueueEvent env { s with m_state := .STATE_PAUSED } w .MEStreamPaused S_OK none
  else some (hr, s, w)

/-- `FlvStream::Stop`. -/
def Stop (env : Env) (s : FlvStream) (w : World) : Outcome :=
  let hr := CheckShutdown s
  if SUCCEEDED hr then
    QueueEvent env { s with m_Requests := [], m_Samples := [], m_state := .STATE_STOPPED } w
      .MEStreamStopped S_OK none
  else some (hr, s, w)

/-- `FlvStream::EndOfStream`. -/
def EndOfStream (env : Env) (s : FlvStream) (w : World) : Outcome :=
  DispatchSamples env { s with eos := true } w

/-- `FlvStream::Shutdown`. -/
def Shutdown (env : Env) (s : FlvStream) (w : World) : HRESULT × FlvStream × World :=
  let hr := CheckShutdown s
  if SUCCEEDED hr then
    let w1 : World :=
      match s.event_queue with
      | some _ => (invoke env .EventQueueShutdown w).2
      | none => w
    (hr,
     { s with m_state := .STATE_SHUTDOWN, m_Samples := [], m_Requests := [],
              event_queue := none, stream_descriptor := none },
     w1)
  else (hr, s, w)

/-- `FlvStream::DeliverPayload`. -/
def DeliverPayload (env : Env) (s : FlvStream) (w : World) (pSample : Nat) : Outcome :=
  let ins := InsertBack env s.m_Samples pSample w
  if SUCCEEDED ins.1 then
    DispatchSamples env { s with m_Samples := ins.2.1 } ins.2.2
  else some (ins.1, s, ins.2.2)

/-- `FlvStream::GetStreamDescriptor`; `ppValid` says the output pointer is not
NULL, the second component is what is stored through it. -/
def GetStreamDescriptor (s : FlvStream) (ppValid : Bool) : HRESULT × Option Nat :=
  if !ppValid then (E_POINTER, none)
  else if s.stream_descriptor = none then (E_UNEXPECTED, none)
  else
    let hr := CheckShutdown s
    if SUCCEEDED hr then (hr, s.stream_descriptor) else (hr, none)

/-- `FlvStream::GetMediaSource`; `m_pSource` is set by the constructor and
released only by the destructor, so its null test never fires. -/
def GetMediaSource (env : Env) (s : FlvStream) (w : World) (ppValid : Bool) : Outcome :=
  if !ppValid then some (E_POINTER, s, w)
  else
    let hr := CheckShutdown s
    if SUCCEEDED hr then
      let r := invoke env .SourceQueryInterface w
      some (r.1, s, r.2)
    else some (hr, s, w)

/-- `FlvStream::BeginGetEvent`. -/
def BeginGetEvent (env : Env) (s : FlvStream) (w : World) : Outcome :=
  let hr := CheckShutdown s
  if SUCCEEDED hr then
    match sinkInvoke env s.event_queue .EventQueueBeginGetEvent w with
    | none => none
    | some r => some (r.1, s, r.2)
  else some (hr, s, w)

/-- `FlvStream::EndGetEvent`. -/
def EndGetEvent (env : Env) (s : FlvStream) (w : World) : Outcome :=
  let hr := CheckShutdown s
  if SUCCEEDED hr then
    match sinkInvoke env s.event_queue .EventQueueEndGetEvent w with
    | none => none
    | some r => some (r.1, s, r.2)
  else some (hr, s, w)

/-- `FlvStream::GetEvent`. -/
def GetEvent (env : Env) (s : FlvStream) (w : World) (dwFlags : Nat) : Outcome :=
  let hr := CheckShutdown s
  if SUCCEEDED hr then
    match sinkInvoke env s.event_queue (.EventQueueGetEvent dwFlags) w with
    | none => none
    | some r => some (r.1, s, r.2)
  else some (hr, s, w)

/-! ## Sequences of public operations -/

/-- A call of a public member function, with its arguments. -/
inductive Op where
  | requestSample (pToken : Option Nat)
  | deliverSample (pSample : Nat)
  | start (varStart : Option Nat)
  | pause
  | stop
  | shutdown
  | activate (act : Bool)
  | endOfStream
  | needsData
  | getStreamDescriptor (ppValid : Bool)
  | getMediaSource (ppValid : Bool)
  | queueEvent (met : MediaEventType) (hrStatus : HRESULT) (pvValue : Option Nat)
  | beginGetEvent
  | endGetEvent
  | getEvent (dwFlags : Nat)
  deriving DecidableEq, Repr

/-- Run one public operation. -/
def step (env : Env) (o : Op) (s : FlvStream) (w : World) : Outcome :=
  match o with
  | .requestSample pToken => RequestSample env s w pToken
  | .deliverSample pSample => DeliverPayload env s w pSample
  | .start varStart => Start env s w varStart
  | .pause => Pause env s w
  | .stop => Stop env s w
  | .shutdown => some (Shutdown env s w)
  | .activate act => some (Activate s w act)
  | .endOfStream => EndOfStream env s w
  | .needsData => some (if NeedsData s then 1 else 0, s, w)
  | .getStreamDescriptor ppValid => some ((GetStreamDescriptor s ppValid).1, s, w)
  | .getMediaSource ppValid => GetMediaSource env s w ppValid
  | .queueEvent met hrStatus pvValue => QueueEvent env s w met hrStatus pvValue
  | .beginGetEvent => BeginGetEvent env s w
  | .endGetEvent => EndGetEvent env s w
  | .getEvent dwFlags => GetEvent env s w dwFlags

/-- Run a sequence of public operations, oldest first; `none` as soon as one
of them faults. -/
def run (env : Env) : List Op → FlvStream → World → Option (FlvStream × World)
  | [], s, w => some (s, w)
  | o :: os, s, w =>
    match step env o s w with
    | none => none
    | some (_, s1, w1) => run env os s1 w1

/-- The collaborators that never fail: every call returns `S_OK`. -/
def okEnv : Env := { alloc := fun _ => S_OK, reply := fun _ _ => S_OK }

/-- The empty world. -/
def World.start : World := { tick := 0, log := [] }

/-! ## Views of the call log -/

/-- The call is made on the sample or on the event queue to hand a sample
over: setting the token, or queueing an event that carries a sample. -/
def Call.isDelivery : Call → Bool
  | .SetUnknown _ _ => true
  | .QueueEventParamUnk _ _ => true
  | _ => false

/-- The call is made through the `event_queue` pointer of the stream. -/
def Call.isSink : Call → Bool
  | .QueueEventParamUnk _ _ => true
  | .QueueEventParamVar _ _ _ => true
  | .EventQueueShutdown => true
  | .EventQueueBeginGetEvent => true
  | .EventQueueEndGetEvent => true
  | .EventQueueGetEvent _ => true
  | _ => false

/-- The call is made on the owning source as producer: more data, or end of
stream of this channel. -/
def Call.isProducer : Call → Bool
  | .AsyncEndOfStream => true
  | .AsyncRequestData => true
  | _ => false

/-- The call queues an error event on the owning source. -/
def Call.isSourceError : Call → Bool
  | .SourceQueueEvent .MEError _ => true
  | _ => false

/-- The samples carried by the `MEMediaSample` events of a log, in order. -/
def sampleReady (log : List Call) : List Nat :=
  log.filterMap fun c =>
    match c with
    | .QueueEventParamUnk .MEMediaSample pSample => some pSample
    | _ => none

/-- The token-setting and sample-carrying calls of a log, in order. -/
def deliveryCalls (log : List Call) : List Call := log.filter Call.isDelivery

/-- The calls that hand one sample to one request: a non-null token is set on
the sample first, a null token sets nothing; then the sample is queued. -/
def pairCalls (p : Nat × Option Nat) : List Call :=
  match p.2 with
  | some tok => [.SetUnknown p.1 tok, .QueueEventParamUnk .MEMediaSample p.1]
  | none => [.QueueEventParamUnk .MEMediaSample p.1]

/-- The calls that hand a list of (sample, token) pairs over, in order. -/
def handoverCalls : List (Nat × Option Nat) → List Call
  | [] => []
  | p :: ps => pairCalls p ++ handoverCalls ps

/-- The number of `MEEndOfStream` events a log queues on the stream. -/
def endOfStreamCount (log : List Call) : Nat :=
  log.countP fun c =>
    match c with
    | .QueueEventParamVar .MEEndOfStream _ _ => true
    | _ => false

/-- The number of `AsyncEndOfStream` calls in a log. -/
def aggregateCount (log : List Call) : Nat :=
  log.countP fun c => decide (c = .AsyncEndOfStream)

/-- The error codes of the `MEError` events a log queues on the source. -/
def sourceErrors (log : List Call) : List HRESULT :=
  log.filterMap fun c =>
    match c with
    | .SourceQueueEvent .MEError hr => some hr
    | _ => none

/-- The operation is a sample request or a sample delivery. -/
def Op.isTraffic : Op → Bool
  | .requestSample _ => true
  | .deliverSample _ => true
  | _ => false

/-- The tokens of the `requestSample` calls of a sequence, in call order. -/
def requestedTokens (ops : List Op) : List (Option Nat) :=
  ops.filterMap fun o =>
    match o with
    | .requestSample pToken => some pToken
    | _ => none

/-- The samples of the `deliverSample` calls of a sequence, in call order. -/
def deliveredSamples (ops : List Op) : List Nat :=
  ops.filterMap fun o =>
    match o with
    | .deliverSample pSample => some pSample
    | _ => none

/-- No list insertion fails. -/
def Env.allocOk (env : Env) : Prop := ∀ n, FAILED (env.alloc n) = false

/-- No token attachment and no call through the event queue fails. -/
def Env.deliveryOk (env : Env) : Prop :=
  ∀ n c, (Call.isDelivery c || Call.isSink c) = true → FAILED (env.reply n c) = false

/-- No token attachment and no queueing of a sample-carrying event fails. -/
def Env.handoverOk (env : Env) : Prop :=
  ∀ n c, Call.isDelivery c = true → FAILED (env.reply n c) = false

/-- The calls of the block after the loop of `DispatchSamples`, as decided by
the stream the loop leaves. -/
def terminalCalls (s : FlvStream) : List Call :=
  if s.m_Samples.isEmpty && s.eos then
    [.QueueEventParamVar .MEEndOfStream S_OK none, .AsyncEndOfStream]
  else if NeedsData s then [.AsyncRequestData]
  else []

/-- The stream a dispatch pass leaves when nothing fails in its loop: the
paired fronts of both queues are gone. -/
def afterDispatch (s : FlvStream) : FlvStream :=
  { s with m_Samples := s.m_Samples.drop s.m_Requests.length,
           m_Requests := s.m_Requests.drop s.m_Samples.length }

/-! ## Sample inputs -/

/-- Collaborators that fail with `E_FAIL` on the call made at tick `k` and
succeed otherwise; list insertions succeed. -/
def failAt (k : Nat) : Env :=
  { alloc := fun _ => S_OK, reply := fun n _ => if n = k then E_FAIL else S_OK }

/-- A started, active channel with empty queues. -/
def startedStream : FlvStream :=
  { m_state := .STATE_STARTED, activated := true, eos := false,
    m_Requests := [], m_Samples := [], event_queue := some 0, stream_descriptor := some 9 }

/-- A freshly constructed channel whose event queue was created. -/
def freshStream : FlvStream := (construct okEnv 9 World.start).2.1

/-- The world right after that construction. -/
def freshWorld : World := (construct okEnv 9 World.start).2.2

/-- A stopped, active channel with an event queue. -/
def stoppedStream : FlvStream :=
  { m_state := .STATE_STOPPED, activated := true, eos := false,
    m_Requests := [], m_Samples := [], event_queue := some 0, stream_descriptor := some 9 }

/-- A channel after `Shutdown`. -/
def shutStream : FlvStream := (Shutdown okEnv startedStream World.start).2.1

/-- A paused, active channel holding two requests and one sample. -/
def pausedStream : FlvStream :=
  { m_state := .STATE_PAUSED, activated := true, eos := false,
    m_Requests := [some 11, none], m_Samples := [1], event_queue := some 0,
    stream_descriptor := some 9 }

/-- An active, started channel holding three samples and two requests. -/
def loadedStream : FlvStream :=
  { m_state := .STATE_STARTED, activated := true, eos := false,
    m_Requests := [some 11, none], m_Samples := [1, 2, 3], event_queue := some 0,
    stream_descriptor := some 9 }

/-- A started, active channel at end of stream that still holds one sample. -/
def drainingStream : FlvStream :=
  { m_state := .STATE_STARTED, activated := true, eos := true,
    m_Requests := [], m_Samples := [1], event_queue := some 0, stream_descriptor := some 9 }

/-- The invariant behind I1: a shut-down stream has no pending request and no
event queue. -/
def ShutInv (s : FlvStream) : Prop :=
  s.m_state = .STATE_SHUTDOWN → s.m_Requests = [] ∧ s.event_queue = none

/-- No collaborator call fails. -/
def Env.allOk (env : Env) : Prop := ∀ n c, FAILED (env.reply n c) = false

/-- The number of `AsyncRequestData` calls in a log. -/
def needDataCount (log : List Call) : Nat :=
  log.countP fun c => decide (c = .AsyncRequestData)

/-- A started, active channel with one pending request and no sample. -/
def waitingStream : FlvStream :=
  { m_state := .STATE_STARTED, activated := true, eos := false,
    m_Requests := [some 10], m_Samples := [], event_queue := some 0,
    stream_descriptor := some 9 }

/-- A started, active channel at end of stream holding its last sample and one
pending request. -/
def lastPairStream : FlvStream :=
  { m_state := .STATE_STARTED, activated := true, eos := true,
    m_Requests := [some 11], m_Samples := [1], event_queue := some 0,
    stream_descriptor := some 9 }

/-- The event queue is null exactly when the stream is shut down. -/
def SinkInv (s : FlvStream) : Prop :=
  s.event_queue = none ↔ s.m_state = .STATE_SHUTDOWN

/-- A stream with a pending request is active and started or paused. -/
def LiveInv (s : FlvStream) : Prop :=
  s.m_Requests ≠ [] →
    s.activated = true ∧ (s.m_state = .STATE_STARTED ∨ s.m_state = .STATE_PAUSED)

/-- Collaborators whose list insertion made at tick `k` fails with `E_FAIL`;
every other insertion and every collaborator call succeeds. -/
def allocFailAt (k : Nat) : Env :=
  { alloc := fun n => if n = k then E_FAIL else S_OK, reply := fun _ _ => S_OK }

/-! ## Lemmas on the dispatch pass -/


theorem Env.handoverOk.setUnknown {env : Env} (h : env.handoverOk) (n s t : Nat) :
    FAILED (env.reply n (.SetUnknown s t)) = false := h n _ rfl

theorem Env.handoverOk.paramUnk {env : Env} (h : env.handoverOk) (n : Nat)
    (met : MediaEventType) (s : Nat) :
    FAILED (env.reply n (.QueueEventParamUnk met s)) = false := h n _ rfl

theorem Env.deliveryOk.handoverOk {env : Env} (h : env.deliveryOk) : env.handoverOk :=
  fun n c hc => h n c (by simp [hc])

theorem failed_S_OK : FAILED S_OK = false := by decide

theorem dispatchLoop_ok (env : Env) (q : Nat) (h : env.handoverOk) :
    ∀ (sq : List Nat) (rq : List (Option Nat)) (hr : HRESULT) (w : World),
      FAILED hr = false →
      ∃ hr1 w1, dispatchLoop env (some q) sq rq hr w
          = some ⟨false, hr1, sq.drop rq.length, rq.drop sq.length, w1⟩
        ∧ FAILED hr1 = false ∧ w1.log = w.log ++ handoverCalls (sq.zip rq) := by
  intro sq
  induction sq with
  | nil =>
    intro rq hr w hhr
    exact ⟨hr, w, by simp [dispatchLoop], hhr, by simp [handoverCalls]⟩
  | cons a sq ih =>
    intro rq hr w hhr
    cases rq with
    | nil => exact ⟨hr, w, by simp [dispatchLoop], hhr, by simp [handoverCalls]⟩
    | cons t rq =>
      cases t with
      | none =>
        have h2 := h.paramUnk w.tick .MEMediaSample a
        obtain ⟨hr1, w1, e1, f1, l1⟩ :=
          ih rq (env.reply w.tick (.QueueEventParamUnk .MEMediaSample a))
            (invoke env (.QueueEventParamUnk .MEMediaSample a) w).2 h2
        refine ⟨hr1, w1, ?_, f1, ?_⟩
        · simp [dispatchLoop, sinkInvoke, failed_S_OK]
          simp [invoke, h2]
          simpa [invoke] using e1
        · simp [l1, invoke, handoverCalls, pairCalls, List.zip]
      | some tok =>
        have h1 := h.setUnknown w.tick a tok
        have h2 := h.paramUnk (w.tick + 1) .MEMediaSample a
        obtain ⟨hr1, w1, e1, f1, l1⟩ :=
          ih rq (env.reply (w.tick + 1) (.QueueEventParamUnk .MEMediaSample a))
            (invoke env (.QueueEventParamUnk .MEMediaSample a)
              (invoke env (.SetUnknown a tok) w).2).2 h2
        refine ⟨hr1, w1, ?_, f1, ?_⟩
        · simp [dispatchLoop, sinkInvoke]
          simp [invoke, h1, h2]
          simpa [invoke] using e1
        · simp [l1, invoke, handoverCalls, pairCalls, List.zip]


theorem dispatchDone_log (env : Env) (s : FlvStream) (hr : HRESULT) (w : World) :
    ∃ errs, (dispatchDone env s hr w).log = w.log ++ errs ∧
      (errs = [] ∨ errs = [.SourceQueueEvent .MEError hr]) := by
  unfold dispatchDone
  split
  · exact ⟨[.SourceQueueEvent .MEError hr], by simp [invoke], Or.inr rfl⟩
  · exact ⟨[], by simp, Or.inl rfl⟩

theorem DispatchSamples_ok (env : Env) (h : env.handoverOk) (s : FlvStream) (w : World)
    (q : Nat) (hst : s.m_state = .STATE_STARTED) (hq : s.event_queue = some q) :
    ∃ w1 errs, DispatchSamples env s w = some (S_OK, afterDispatch s, w1) ∧
      w1.log = w.log ++ handoverCalls (s.m_Samples.zip s.m_Requests)
        ++ terminalCalls (afterDispatch s) ++ errs ∧
      (errs = [] ∨ ∃ hr, errs = [.SourceQueueEvent .MEError hr]) := by
  obtain ⟨st, act, eos, rq, sq, eq, sd⟩ := s
  simp only at hst hq
  subst hst hq
  obtain ⟨hr1, w1, e1, f1, l1⟩ := dispatchLoop_ok env q h sq rq S_OK w failed_S_OK
  simp only [DispatchSamples, afterDispatch, terminalCalls, e1, dispatchTerminal, sinkInvoke,
    ne_eq, not_true_eq_false, if_false, Bool.false_eq_true]
  by_cases c1 : ((List.drop rq.length sq).isEmpty && eos) = true
  · simp only [c1, if_true]
    obtain ⟨errs, le, he⟩ := dispatchDone_log env
      ⟨.STATE_STARTED, act, eos, List.drop sq.length rq, List.drop rq.length sq, some q, sd⟩
      (invoke env .AsyncEndOfStream
        (invoke env (.QueueEventParamVar .MEEndOfStream S_OK none) w1).2).1
      (invoke env .AsyncEndOfStream
        (invoke env (.QueueEventParamVar .MEEndOfStream S_OK none) w1).2).2
    refine ⟨_, errs, rfl, ?_, ?_⟩
    · rw [le]; simp [invoke, l1]
    · rcases he with he | he
      · exact Or.inl he
      · exact Or.inr ⟨_, he⟩
  · simp only [c1, if_false, Bool.false_eq_true]
    by_cases c2 : NeedsData
        ⟨.STATE_STARTED, act, eos, List.drop sq.length rq, List.drop rq.length sq, some q, sd⟩ = true
    · simp only [c2, if_true]
      obtain ⟨errs, le, he⟩ := dispatchDone_log env
        ⟨.STATE_STARTED, act, eos, List.drop sq.length rq, List.drop rq.length sq, some q, sd⟩
        (invoke env .AsyncRequestData w1).1 (invoke env .AsyncRequestData w1).2
      refine ⟨_, errs, rfl, ?_, ?_⟩
      · rw [le]; simp [invoke, l1]
      · rcases he with he | he
        · exact Or.inl he
        · exact Or.inr ⟨_, he⟩
    · simp only [c2, if_false, Bool.false_eq_true]
      refine ⟨_, [], rfl, ?_, Or.inl rfl⟩
      simp [dispatchDone, f1, l1]


theorem sampleReady_append (a b : List Call) :
    sampleReady (a ++ b) = sampleReady a ++ sampleReady b := by
  simp [sampleReady]

theorem deliveryCalls_append (a b : List Call) :
    deliveryCalls (a ++ b) = deliveryCalls a ++ deliveryCalls b := by
  simp [deliveryCalls]

theorem handoverCalls_append (a b : List (Nat × Option Nat)) :
    handoverCalls (a ++ b) = handoverCalls a ++ handoverCalls b := by
  induction a with
  | nil => rfl
  | cons p ps ih => simp [handoverCalls, ih]

theorem sampleReady_handover (l : List (Nat × Option Nat)) :
    sampleReady (handoverCalls l) = l.map Prod.fst := by
  induction l with
  | nil => rfl
  | cons p ps ih =>
    obtain ⟨a, t⟩ := p
    cases t with
    | none =>
      show sampleReady ([.QueueEventParamUnk .MEMediaSample a] ++ handoverCalls ps) = _
      rw [sampleReady_append, ih]; rfl
    | some tok =>
      show sampleReady ([.SetUnknown a tok, .QueueEventParamUnk .MEMediaSample a]
        ++ handoverCalls ps) = _
      rw [sampleReady_append, ih]; rfl

theorem deliveryCalls_handover (l : List (Nat × Option Nat)) :
    deliveryCalls (handoverCalls l) = handoverCalls l := by
  induction l with
  | nil => rfl
  | cons p ps ih =>
    obtain ⟨a, t⟩ := p
    cases t with
    | none =>
      show deliveryCalls ([.QueueEventParamUnk .MEMediaSample a] ++ handoverCalls ps) = _
      rw [deliveryCalls_append, ih]; rfl
    | some tok =>
      show deliveryCalls ([.SetUnknown a tok, .QueueEventParamUnk .MEMediaSample a]
        ++ handoverCalls ps) = _
      rw [deliveryCalls_append, ih]; rfl

theorem sampleReady_terminal (s : FlvStream) : sampleReady (terminalCalls s) = [] := by
  unfold terminalCalls
  split
  · rfl
  · split <;> rfl

theorem deliveryCalls_terminal (s : FlvStream) : deliveryCalls (terminalCalls s) = [] := by
  unfold terminalCalls
  split
  · rfl
  · split <;> rfl

theorem zip_fst_drop (A : List Nat) : ∀ B : List (Option Nat),
    (A.zip B).map Prod.fst ++ A.drop B.length = A := by
  induction A with
  | nil => intro B; simp
  | cons a A ih =>
    intro B
    cases B with
    | nil => simp
    | cons b B => simpa using ih B

theorem zip_snd_drop (A : List Nat) : ∀ B : List (Option Nat),
    (A.zip B).map Prod.snd ++ B.drop A.length = B := by
  induction A with
  | nil => intro B; simp
  | cons a A ih =>
    intro B
    cases B with
    | nil => simp
    | cons b B => simpa using ih B

theorem drop_nil_or (A : List Nat) (B : List (Option Nat)) :
    A.drop B.length = [] ∨ B.drop A.length = [] := by
  rcases Nat.le_total A.length B.length with h | h
  · exact Or.inl (List.drop_eq_nil_of_le h)
  · exact Or.inr (List.drop_eq_nil_of_le h)

/-- What one dispatch pass adds, seen through the delivery views. -/
theorem DispatchSamples_views (env : Env) (h : env.handoverOk) (s : FlvStream) (w : World)
    (q : Nat) (hst : s.m_state = .STATE_STARTED) (hq : s.event_queue = some q) :
    ∃ w1 add, DispatchSamples env s w = some (S_OK, afterDispatch s, w1) ∧
      w1.log = w.log ++ add ∧
      sampleReady add = (s.m_Samples.zip s.m_Requests).map Prod.fst ∧
      deliveryCalls add = handoverCalls (s.m_Samples.zip s.m_Requests) := by
  obtain ⟨w1, errs, e, l, he⟩ := DispatchSamples_ok env h s w q hst hq
  refine ⟨w1, _, e, by rw [l, List.append_assoc, List.append_assoc], ?_, ?_⟩
  · rw [sampleReady_append, sampleReady_append, sampleReady_handover, sampleReady_terminal]
    rcases he with he | ⟨hr, he⟩ <;> subst he <;> simp <;> rfl
  · rw [deliveryCalls_append, deliveryCalls_append, deliveryCalls_handover,
      deliveryCalls_terminal]
    rcases he with he | ⟨hr, he⟩ <;> subst he <;> simp <;> rfl


theorem run_append (env : Env) : ∀ (a b : List Op) (s : FlvStream) (w : World),
    run env (a ++ b) s w = (run env a s w).bind fun p => run env b p.1 p.2 := by
  intro a
  induction a with
  | nil => intro b s w; rfl
  | cons o os ih =>
    intro b s w
    simp only [List.cons_append, run]
    cases step env o s w with
    | none => rfl
    | some r => exact ih b r.2.1 r.2.2

/-- A request on a started, active channel that is not at end of stream, when
the insertion and the deliveries succeed. -/
theorem RequestSample_running (env : Env) (ha : env.allocOk) (h : env.handoverOk)
    (s : FlvStream) (w : World) (t : Option Nat) (q : Nat)
    (hst : s.m_state = .STATE_STARTED) (hact : s.activated = true) (heos : s.eos = false)
    (hq : s.event_queue = some q) :
    ∃ w1 add, RequestSample env s w t
        = some (S_OK, afterDispatch { s with m_Requests := s.m_Requests ++ [t] }, w1) ∧
      w1.log = w.log ++ add ∧
      sampleReady add = (s.m_Samples.zip (s.m_Requests ++ [t])).map Prod.fst ∧
      deliveryCalls add = handoverCalls (s.m_Samples.zip (s.m_Requests ++ [t])) := by
  obtain ⟨st, act, eos, rq, sq, eq, sd⟩ := s
  simp only at hst hact heos hq
  subst hst hact heos hq
  obtain ⟨w1, add, e, l, v1, v2⟩ := DispatchSamples_views env h
    ⟨.STATE_STARTED, true, false, rq ++ [t], sq, some q, sd⟩
    { w with tick := w.tick + 1 } q rfl rfl
  refine ⟨w1, add, ?_, l, v1, v2⟩
  have ha1 := ha w.tick
  simp only [RequestSample, CheckShutdown, IsActive, InsertBack, ha1]
  simp [FAILED, S_OK, e, requestDone]

/-- A delivery on a started channel, when the insertion and the deliveries
succeed. -/
theorem DeliverPayload_running (env : Env) (ha : env.allocOk) (h : env.handoverOk)
    (s : FlvStream) (w : World) (x : Nat) (q : Nat)
    (hst : s.m_state = .STATE_STARTED) (hq : s.event_queue = some q) :
    ∃ w1 add, DeliverPayload env s w x
        = some (S_OK, afterDispatch { s with m_Samples := s.m_Samples ++ [x] }, w1) ∧
      w1.log = w.log ++ add ∧
      sampleReady add = ((s.m_Samples ++ [x]).zip s.m_Requests).map Prod.fst ∧
      deliveryCalls add = handoverCalls ((s.m_Samples ++ [x]).zip s.m_Requests) := by
  obtain ⟨st, act, eos, rq, sq, eq, sd⟩ := s
  simp only at hst hq
  subst hst hq
  obtain ⟨w1, add, e, l, v1, v2⟩ := DispatchSamples_views env h
    ⟨.STATE_STARTED, act, eos, rq, sq ++ [x], some q, sd⟩
    { w with tick := w.tick + 1 } q rfl rfl
  refine ⟨w1, add, ?_, l, v1, v2⟩
  have ha1 := ha w.tick
  simp only [DeliverPayload, InsertBack, ha1]
  simp [SUCCEEDED, S_OK, e]


theorem zip_fst_snd (D : List (Nat × Option Nat)) :
    (D.map Prod.fst).zip (D.map Prod.snd) = D := by
  induction D with
  | nil => rfl
  | cons p ps ih => simp [ih]

theorem zip_of_split (D : List (Nat × Option Nat)) (sq : List Nat) (rq : List (Option Nat))
    (he : sq = [] ∨ rq = []) :
    (D.map Prod.fst ++ sq).zip (D.map Prod.snd ++ rq) = D := by
  rw [List.zip_append (by simp), zip_fst_snd]
  rcases he with he | he <;> subst he <;> simp

theorem take_of_split (D : List (Nat × Option Nat)) (sq : List Nat) (rq : List (Option Nat))
    (he : sq = [] ∨ rq = []) :
    (D.map Prod.fst ++ sq).take
      (min (D.map Prod.snd ++ rq).length (D.map Prod.fst ++ sq).length) = D.map Prod.fst := by
  have hm : min (D.map Prod.snd ++ rq).length (D.map Prod.fst ++ sq).length
      = (D.map Prod.fst).length := by
    rcases he with he | he <;> subst he <;> simp
  rw [hm, List.take_left]

/-- The state kept by every prefix of a request/delivery interleaving on a
running channel: the pairs handed over so far split both histories. -/
theorem traffic_invariant (env : Env) (ha : env.allocOk) (h : env.handoverOk)
    (s0 : FlvStream) (w0 : World) (q : Nat)
    (hst : s0.m_state = .STATE_STARTED) (hact : s0.activated = true) (heos : s0.eos = false)
    (hq : s0.event_queue = some q) (hrq : s0.m_Requests = []) (hsq : s0.m_Samples = [])
    (ops : List Op) (hops : ∀ o ∈ ops, Op.isTraffic o = true) :
    ∃ s w D new, run env ops s0 w0 = some (s, w) ∧
      s.m_state = .STATE_STARTED ∧ s.activated = true ∧ s.eos = false ∧
      s.event_queue = some q ∧ (s.m_Samples = [] ∨ s.m_Requests = []) ∧
      w.log = w0.log ++ new ∧
      deliveredSamples ops = D.map Prod.fst ++ s.m_Samples ∧
      requestedTokens ops = D.map Prod.snd ++ s.m_Requests ∧
      sampleReady new = D.map Prod.fst ∧ deliveryCalls new = handoverCalls D := by
  induction ops using List.reverseRecOn with
  | nil =>
    exact ⟨s0, w0, [], [], rfl, hst, hact, heos, hq, Or.inl hsq, by simp,
      by simp [deliveredSamples, hsq], by simp [requestedTokens, hrq], rfl, rfl⟩
  | append_singleton ops o ih =>
    have hops1 : ∀ o ∈ ops, Op.isTraffic o = true :=
      fun o1 ho1 => hops o1 (List.mem_append_left _ ho1)
    have ho : Op.isTraffic o = true := hops o (by simp)
    obtain ⟨s, w, D, new, er, i1, i2, i3, i4, _, i6, i7, i8, i9, i10⟩ := ih hops1
    rw [run_append, er]
    cases o with
    | requestSample t =>
      obtain ⟨w1, add, e, l, v1, v2⟩ := RequestSample_running env ha h s w t q i1 i2 i3 i4
      refine ⟨afterDispatch { s with m_Requests := s.m_Requests ++ [t] }, w1,
        D ++ s.m_Samples.zip (s.m_Requests ++ [t]), new ++ add, ?_,
        i1, i2, i3, i4, ?_, ?_, ?_, ?_, ?_, ?_⟩
      · simp [run, step, e]
      · exact drop_nil_or _ _
      · rw [l, i6, List.append_assoc]
      · simp only [deliveredSamples, List.filterMap_append, List.filterMap_cons,
          List.filterMap_nil, List.append_nil, List.map_append, List.append_assoc]
        rw [← deliveredSamples, i7]
        exact congrArg _ (zip_fst_drop s.m_Samples (s.m_Requests ++ [t])).symm
      · simp only [requestedTokens, List.filterMap_append, List.filterMap_cons,
          List.filterMap_nil, List.map_append, List.append_assoc]
        rw [← requestedTokens, i8, List.append_assoc]
        exact congrArg _ (zip_snd_drop s.m_Samples (s.m_Requests ++ [t])).symm
      · rw [sampleReady_append, i9, v1, List.map_append]
      · rw [deliveryCalls_append, i10, v2, handoverCalls_append]
    | deliverSample x =>
      obtain ⟨w1, add, e, l, v1, v2⟩ := DeliverPayload_running env ha h s w x q i1 i4
      refine ⟨afterDispatch { s with m_Samples := s.m_Samples ++ [x] }, w1,
        D ++ (s.m_Samples ++ [x]).zip s.m_Requests, new ++ add, ?_,
        i1, i2, i3, i4, ?_, ?_, ?_, ?_, ?_, ?_⟩
      · simp [run, step, e]
      · exact drop_nil_or _ _
      · rw [l, i6, List.append_assoc]
      · simp only [deliveredSamples, List.filterMap_append, List.filterMap_cons,
          List.filterMap_nil, List.map_append, List.append_assoc]
        rw [← deliveredSamples, i7, List.append_assoc]
        exact congrArg _ (zip_fst_drop (s.m_Samples ++ [x]) s.m_Requests).symm
      · simp only [requestedTokens, List.filterMap_append, List.filterMap_cons,
          List.filterMap_nil, List.append_nil, List.map_append, List.append_assoc]
        rw [← requestedTokens, i8]
        exact congrArg _ (zip_snd_drop (s.m_Samples ++ [x]) s.m_Requests).symm
      · rw [sampleReady_append, i9, v1, List.map_append]
      · rw [deliveryCalls_append, i10, v2, handoverCalls_append]
    | _ => simp [Op.isTraffic] at ho

/-! ## Frame lemmas for the member functions -/

theorem endOfStreamCount_append (a b : List Call) :
    endOfStreamCount (a ++ b) = endOfStreamCount a + endOfStreamCount b := by
  simp [endOfStreamCount]

theorem aggregateCount_append (a b : List Call) :
    aggregateCount (a ++ b) = aggregateCount a + aggregateCount b := by
  simp [aggregateCount]

theorem zip_fst_take (A : List Nat) : ∀ B : List (Option Nat),
    (A.zip B).map Prod.fst = A.take (min A.length B.length) := by
  induction A with
  | nil => intro B; simp
  | cons a A ih =>
    intro B
    cases B with
    | nil => simp
    | cons b B => simp [ih B, Nat.succ_min_succ]

/-- `EndOfStream` on a started channel whose sample queue is empty queues one
`MEEndOfStream` and calls `AsyncEndOfStream` once, whatever the collaborators
answer. -/
theorem EndOfStream_drained (env : Env) (s : FlvStream) (w : World) (q : Nat)
    (hst : s.m_state = .STATE_STARTED) (hq : s.event_queue = some q)
    (hsq : s.m_Samples = []) :
    ∃ w1, EndOfStream env s w = some (S_OK, { s with eos := true }, w1) ∧
      endOfStreamCount w1.log = endOfStreamCount w.log + 1 ∧
      aggregateCount w1.log = aggregateCount w.log + 1 := by
  obtain ⟨st, act, eos, rq, sq, eq, sd⟩ := s
  simp only at hst hq hsq
  subst hst hq hsq
  obtain ⟨errs, le, he⟩ := dispatchDone_log env
    ⟨.STATE_STARTED, act, true, rq, [], some q, sd⟩
    (invoke env .AsyncEndOfStream
      (invoke env (.QueueEventParamVar .MEEndOfStream S_OK none) w).2).1
    (invoke env .AsyncEndOfStream
      (invoke env (.QueueEventParamVar .MEEndOfStream S_OK none) w).2).2
  refine ⟨dispatchDone env ⟨.STATE_STARTED, act, true, rq, [], some q, sd⟩
    (invoke env .AsyncEndOfStream
      (invoke env (.QueueEventParamVar .MEEndOfStream S_OK none) w).2).1
    (invoke env .AsyncEndOfStream
      (invoke env (.QueueEventParamVar .MEEndOfStream S_OK none) w).2).2, ?_, ?_, ?_⟩
  · simp [EndOfStream, DispatchSamples, dispatchLoop, dispatchTerminal, sinkInvoke]
  · rw [le]
    rcases he with he | he <;> subst he <;>
      simp [invoke, endOfStreamCount_append] <;> simp [endOfStreamCount]
  · rw [le]
    rcases he with he | he <;> subst he <;>
      simp [invoke, aggregateCount_append] <;> simp [aggregateCount]

/-- `DeliverPayload` outside the started state only stores the sample. -/
theorem DeliverPayload_not_started (env : Env) (s : FlvStream) (w : World) (x : Nat)
    (hst : s.m_state ≠ .STATE_STARTED) (ha : FAILED (env.alloc w.tick) = false) :
    DeliverPayload env s w x
      = some (S_OK, { s with m_Samples := s.m_Samples ++ [x] },
          { w with tick := w.tick + 1 }) := by
  simp [DeliverPayload, InsertBack, ha, SUCCEEDED, S_OK, DispatchSamples, hst]

theorem succeeded_S_OK : SUCCEEDED S_OK = true := by decide

theorem CheckShutdown_ok (s : FlvStream) (h : s.m_state ≠ .STATE_SHUTDOWN) :
    CheckShutdown s = S_OK := by
  simp [CheckShutdown, h]

/-- `Start` on a channel that is not shut down, when it returns success and
the hand-over calls do not fail. -/
theorem Start_backlog (env : Env) (h : env.handoverOk) (s : FlvStream) (w : World)
    (v : Option Nat) (q : Nat) (hst : s.m_state ≠ .STATE_SHUTDOWN)
    (hq : s.event_queue = some q)
    (hr : HRESULT) (s1 : FlvStream) (w1 : World)
    (hs : Start env s w v = some (hr, s1, w1)) (hok : SUCCEEDED hr = true) :
    s1 = afterDispatch { s with m_state := .STATE_STARTED } ∧
    ∃ rest, w1.log = w.log ++ [.QueueEventParamVar .MEStreamStarted S_OK v]
        ++ handoverCalls (s.m_Samples.zip s.m_Requests) ++ rest ∧
      sampleReady rest = [] ∧ deliveryCalls rest = [] := by
  obtain ⟨st, act, eos, rq, sq, eq, sd⟩ := s
  simp only at hst hq
  subst hq
  have hc := CheckShutdown_ok ⟨st, act, eos, rq, sq, some q, sd⟩ hst
  simp only [Start, QueueEvent, hc, succeeded_S_OK, if_true, sinkInvoke] at hs
  by_cases hf : SUCCEEDED
      (invoke env (.QueueEventParamVar .MEStreamStarted S_OK v) w).1 = true
  · obtain ⟨w2, errs, e, l, he⟩ := DispatchSamples_ok env h
      ⟨.STATE_STARTED, act, eos, rq, sq, some q, sd⟩
      (invoke env (.QueueEventParamVar .MEStreamStarted S_OK v) w).2 q rfl rfl
    simp only [hf, if_true, e, Option.some.injEq, Prod.mk.injEq] at hs
    obtain ⟨_, hs1, hw1⟩ := hs
    subst hs1 hw1
    refine ⟨rfl, terminalCalls (afterDispatch ⟨.STATE_STARTED, act, eos, rq, sq, some q, sd⟩)
      ++ errs, ?_, ?_, ?_⟩
    · rw [l]; simp [invoke]
    · rw [sampleReady_append, sampleReady_terminal]
      rcases he with he | ⟨c, he⟩ <;> subst he <;> rfl
    · rw [deliveryCalls_append, deliveryCalls_terminal]
      rcases he with he | ⟨c, he⟩ <;> subst he <;> rfl
  · simp only [hf, if_false, Option.some.injEq, Prod.mk.injEq, Bool.false_eq_true] at hs
    obtain ⟨hhr, _, _⟩ := hs
    subst hhr
    exact absurd hok hf

theorem CheckShutdown_shut (s : FlvStream) (h : s.m_state = .STATE_SHUTDOWN) :
    CheckShutdown s = MF_E_SHUTDOWN := by
  simp [CheckShutdown, h]

theorem failed_MF_E_SHUTDOWN : FAILED MF_E_SHUTDOWN = true := by decide

theorem succeeded_MF_E_SHUTDOWN : SUCCEEDED MF_E_SHUTDOWN = false := by decide

/-- A dispatch pass touches only the two queues, and nothing at all outside the
started state. -/
theorem DispatchSamples_frame (env : Env) (s : FlvStream) (w : World)
    (hr : HRESULT) (s1 : FlvStream) (w1 : World)
    (h : DispatchSamples env s w = some (hr, s1, w1)) :
    s1.m_state = s.m_state ∧ s1.activated = s.activated ∧ s1.eos = s.eos ∧
    s1.event_queue = s.event_queue ∧ s1.stream_descriptor = s.stream_descriptor ∧
    (s.m_state ≠ .STATE_STARTED → s1 = s ∧ w1 = w) := by
  unfold DispatchSamples at h
  by_cases hst : s.m_state = .STATE_STARTED
  · simp only [hst, ne_eq, not_true_eq_false, if_false] at h
    cases hl : dispatchLoop env s.event_queue s.m_Samples s.m_Requests S_OK w with
    | none => simp [hl] at h
    | some r =>
      simp only [hl] at h
      split at h
      · exact absurd h (by simp)
      · simp only [Option.some.injEq, Prod.mk.injEq] at h
        obtain ⟨_, h1, _⟩ := h
        subst h1
        exact ⟨hst.symm, rfl, rfl, rfl, rfl, fun hne => absurd hst hne⟩
  · simp only [ne_eq, hst, not_false_eq_true, if_true, Option.some.injEq, Prod.mk.injEq] at h
    obtain ⟨_, h1, h2⟩ := h
    subst h1 h2
    exact ⟨rfl, rfl, rfl, rfl, rfl, fun _ => ⟨rfl, rfl⟩⟩

theorem requestDone_frame (env : Env) (s : FlvStream) (hr : HRESULT) (w : World) :
    (requestDone env s hr w).2.1 = s := by
  unfold requestDone
  split <;> rfl

theorem RequestSample_frame (env : Env) (s : FlvStream) (w : World) (t : Option Nat)
    (hr : HRESULT) (s1 : FlvStream) (w1 : World)
    (h : RequestSample env s w t = some (hr, s1, w1)) :
    s1.m_state = s.m_state ∧ s1.event_queue = s.event_queue ∧
    (s.m_state = .STATE_SHUTDOWN → s1 = s) := by
  unfold RequestSample at h
  simp only at h
  split at h
  · simp only [Option.some.injEq] at h
    have := requestDone_frame env s (CheckShutdown s) w
    rw [h] at this
    simp only at this
    subst this
    exact ⟨rfl, rfl, fun _ => rfl⟩
  · rename_i hcs
    have hne : s.m_state ≠ .STATE_SHUTDOWN := by
      intro hs
      rw [CheckShutdown_shut s hs, failed_MF_E_SHUTDOWN] at hcs
      exact hcs rfl
    split at h
    · simp only [Option.some.injEq] at h
      have := requestDone_frame env s MF_E_INVALIDREQUEST w
      rw [h] at this
      simp only at this
      subst this
      exact ⟨rfl, rfl, fun _ => rfl⟩
    · split at h
      · simp only [Option.some.injEq] at h
        have := requestDone_frame env s MF_E_INVALIDREQUEST w
        rw [h] at this
        simp only at this
        subst this
        exact ⟨rfl, rfl, fun _ => rfl⟩
      · split at h
        · simp only [Option.some.injEq] at h
          have := requestDone_frame env s MF_E_END_OF_STREAM w
          rw [h] at this
          simp only at this
          subst this
          exact ⟨rfl, rfl, fun _ => rfl⟩
        · split at h
          · simp only [Option.some.injEq] at h
            have := requestDone_frame env s (InsertBack env s.m_Requests t w).1
              (InsertBack env s.m_Requests t w).2.2
            rw [h] at this
            simp only at this
            subst this
            exact ⟨rfl, rfl, fun _ => rfl⟩
          · split at h
            · exact absurd h (by simp)
            · rename_i hr1 s2 w2 hd
              simp only [Option.some.injEq] at h
              have := requestDone_frame env s2 hr1 w2
              rw [h] at this
              simp only at this
              subst this
              obtain ⟨f1, _, _, f4, _, _⟩ := DispatchSamples_frame env _ _ _ _ _ hd
              exact ⟨f1, f4, fun hs => absurd hs hne⟩

theorem DeliverPayload_frame (env : Env) (s : FlvStream) (w : World) (x : Nat)
    (hr : HRESULT) (s1 : FlvStream) (w1 : World)
    (h : DeliverPayload env s w x = some (hr, s1, w1)) :
    s1.m_state = s.m_state ∧ s1.event_queue = s.event_queue ∧
    (s.m_state ≠ .STATE_STARTED → s1.m_Requests = s.m_Requests) := by
  unfold DeliverPayload at h
  simp only at h
  split at h
  · obtain ⟨f1, _, _, f4, _, f6⟩ := DispatchSamples_frame env _ _ _ _ _ h
    refine ⟨f1, f4, fun hne => ?_⟩
    rw [(f6 hne).1]
  · simp only [Option.some.injEq, Prod.mk.injEq] at h
    obtain ⟨_, h1, _⟩ := h
    subst h1
    exact ⟨rfl, rfl, fun _ => rfl⟩

theorem EndOfStream_frame (env : Env) (s : FlvStream) (w : World)
    (hr : HRESULT) (s1 : FlvStream) (w1 : World)
    (h : EndOfStream env s w = some (hr, s1, w1)) :
    s1.m_state = s.m_state ∧ s1.event_queue = s.event_queue ∧
    (s.m_state ≠ .STATE_STARTED → s1.m_Requests = s.m_Requests) := by
  unfold EndOfStream at h
  obtain ⟨f1, _, _, f4, _, f6⟩ := DispatchSamples_frame env _ _ _ _ _ h
  refine ⟨f1, f4, fun hne => ?_⟩
  rw [(f6 hne).1]

theorem QueueEvent_frame (env : Env) (s : FlvStream) (w : World) (met : MediaEventType)
    (st : HRESULT) (v : Option Nat) (hr : HRESULT) (s1 : FlvStream) (w1 : World)
    (h : QueueEvent env s w met st v = some (hr, s1, w1)) : s1 = s := by
  unfold QueueEvent at h
  simp only at h
  split at h
  · split at h
    · exact absurd h (by simp)
    · simp only [Option.some.injEq, Prod.mk.injEq] at h
      exact h.2.1.symm
  · simp only [Option.some.injEq, Prod.mk.injEq] at h
    exact h.2.1.symm

theorem Start_frame (env : Env) (s : FlvStream) (w : World) (v : Option Nat)
    (hr : HRESULT) (s1 : FlvStream) (w1 : World)
    (h : Start env s w v = some (hr, s1, w1)) :
    s1.event_queue = s.event_queue ∧
    (s.m_state = .STATE_SHUTDOWN → hr = MF_E_SHUTDOWN ∧ s1 = s ∧ w1 = w) ∧
    (s.m_state ≠ .STATE_SHUTDOWN → s1.m_state ≠ .STATE_SHUTDOWN) := by
  by_cases hs : s.m_state = .STATE_SHUTDOWN
  · simp only [Start, CheckShutdown_shut s hs, succeeded_MF_E_SHUTDOWN, Bool.false_eq_true,
      if_false, Option.some.injEq, Prod.mk.injEq] at h
    obtain ⟨h0, h1, h2⟩ := h
    subst h0 h1 h2
    exact ⟨rfl, fun _ => ⟨rfl, rfl, rfl⟩, fun hne => absurd hs hne⟩
  · simp only [Start, CheckShutdown_ok s hs, succeeded_S_OK, if_true] at h
    split at h
    · exact absurd h (by simp)
    · rename_i hr1 s2 w2 hq
      have e2 := QueueEvent_frame env _ _ _ _ _ _ _ _ hq
      subst e2
      split at h
      · obtain ⟨f1, _, _, f4, _, _⟩ := DispatchSamples_frame env _ _ _ _ _ h
        refine ⟨f4, fun hs1 => absurd hs1 hs, fun _ => ?_⟩
        rw [f1]
        simp
      · simp only [Option.some.injEq, Prod.mk.injEq] at h
        obtain ⟨_, h1, _⟩ := h
        subst h1
        exact ⟨rfl, fun hs1 => absurd hs1 hs, fun _ => hs⟩

theorem Pause_frame (env : Env) (s : FlvStream) (w : World)
    (hr : HRESULT) (s1 : FlvStream) (w1 : World)
    (h : Pause env s w = some (hr, s1, w1)) :
    s1.event_queue = s.event_queue ∧
    (s.m_state = .STATE_SHUTDOWN → hr = MF_E_SHUTDOWN ∧ s1 = s ∧ w1 = w) ∧
    (s.m_state ≠ .STATE_SHUTDOWN → s1.m_state ≠ .STATE_SHUTDOWN) := by
  by_cases hs : s.m_state = .STATE_SHUTDOWN
  · simp only [Pause, CheckShutdown_shut s hs, succeeded_MF_E_SHUTDOWN, Bool.false_eq_true,
      if_false, Option.some.injEq, Prod.mk.injEq] at h
    obtain ⟨h0, h1, h2⟩ := h
    subst h0 h1 h2
    exact ⟨rfl, fun _ => ⟨rfl, rfl, rfl⟩, fun hne => absurd hs hne⟩
  · simp only [Pause, CheckShutdown_ok s hs, succeeded_S_OK, if_true] at h
    have e2 := QueueEvent_frame env _ _ _ _ _ _ _ _ h
    subst e2
    exact ⟨rfl, fun hs1 => absurd hs1 hs, fun _ => by simp⟩

theorem Stop_frame (env : Env) (s : FlvStream) (w : World)
    (hr : HRESULT) (s1 : FlvStream) (w1 : World)
    (h : Stop env s w = some (hr, s1, w1)) :
    s1.event_queue = s.event_queue ∧
    (s.m_state = .STATE_SHUTDOWN → hr = MF_E_SHUTDOWN ∧ s1 = s ∧ w1 = w) ∧
    (s.m_state ≠ .STATE_SHUTDOWN → s1.m_state ≠ .STATE_SHUTDOWN) := by
  by_cases hs : s.m_state = .STATE_SHUTDOWN
  · simp only [Stop, CheckShutdown_shut s hs, succeeded_MF_E_SHUTDOWN, Bool.false_eq_true,
      if_false, Option.some.injEq, Prod.mk.injEq] at h
    obtain ⟨h0, h1, h2⟩ := h
    subst h0 h1 h2
    exact ⟨rfl, fun _ => ⟨rfl, rfl, rfl⟩, fun hne => absurd hs hne⟩
  · simp only [Stop, CheckShutdown_ok s hs, succeeded_S_OK, if_true] at h
    have e2 := QueueEvent_frame env _ _ _ _ _ _ _ _ h
    subst e2
    exact ⟨rfl, fun hs1 => absurd hs1 hs, fun _ => by simp⟩

theorem Shutdown_frame (env : Env) (s : FlvStream) (w : World) :
    (s.m_state = .STATE_SHUTDOWN → Shutdown env s w = (MF_E_SHUTDOWN, s, w)) ∧
    (s.m_state ≠ .STATE_SHUTDOWN →
      (Shutdown env s w).1 = S_OK ∧
      (Shutdown env s w).2.1 =
        { s with m_state := .STATE_SHUTDOWN, m_Samples := [], m_Requests := [],
                 event_queue := none, stream_descriptor := none }) := by
  constructor
  · intro hs
    simp [Shutdown, CheckShutdown_shut s hs, succeeded_MF_E_SHUTDOWN]
  · intro hs
    simp [Shutdown, CheckShutdown_ok s hs, succeeded_S_OK]

theorem Activate_frame (s : FlvStream) (w : World) (act : Bool) :
    (Activate s w act).1 = S_OK ∧ (Activate s w act).2.2 = w ∧
    (Activate s w act).2.1.m_state = s.m_state ∧
    (Activate s w act).2.1.eos = s.eos ∧
    (Activate s w act).2.1.event_queue = s.event_queue ∧
    ((Activate s w act).2.1.m_Requests = s.m_Requests ∨
      (Activate s w act).2.1.m_Requests = []) := by
  unfold Activate
  split
  · exact ⟨rfl, rfl, rfl, rfl, rfl, Or.inl rfl⟩
  · split
    · exact ⟨rfl, rfl, rfl, rfl, rfl, Or.inr rfl⟩
    · exact ⟨rfl, rfl, rfl, rfl, rfl, Or.inl rfl⟩

theorem passThrough_frame (env : Env) (s : FlvStream) (w : World) (c : Call)
    (hr : HRESULT) (s1 : FlvStream) (w1 : World)
    (h : (match sinkInvoke env s.event_queue c w with
          | none => none
          | some r => some (r.1, s, r.2)) = some (hr, s1, w1)) : s1 = s := by
  split at h
  · exact absurd h (by simp)
  · simp only [Option.some.injEq, Prod.mk.injEq] at h
    exact h.2.1.symm

/-- Every public operation keeps `ShutInv`. -/
theorem step_ShutInv (env : Env) (o : Op) (s : FlvStream) (w : World)
    (hr : HRESULT) (s1 : FlvStream) (w1 : World)
    (h : step env o s w = some (hr, s1, w1)) (hi : ShutInv s) : ShutInv s1 := by
  have keep : s1.m_state = s.m_state → s1.m_Requests = s.m_Requests →
      s1.event_queue = s.event_queue → ShutInv s1 := by
    intro a b c hs
    rw [b, c]
    exact hi (a ▸ hs)
  cases o with
  | requestSample t =>
    obtain ⟨f1, f2, f3⟩ := RequestSample_frame env s w t hr s1 w1 h
    intro hs
    have hs0 : s.m_state = .STATE_SHUTDOWN := f1 ▸ hs
    rw [f3 hs0]
    exact hi hs0
  | deliverSample x =>
    obtain ⟨f1, f2, f3⟩ := DeliverPayload_frame env s w x hr s1 w1 h
    intro hs
    have hs0 : s.m_state = .STATE_SHUTDOWN := f1 ▸ hs
    rw [f2, f3 (by rw [hs0]; simp)]
    exact hi hs0
  | start v =>
    obtain ⟨f1, f2, f3⟩ := Start_frame env s w v hr s1 w1 h
    intro hs
    by_cases hs0 : s.m_state = .STATE_SHUTDOWN
    · rw [(f2 hs0).2.1]; exact hi hs0
    · exact absurd hs (f3 hs0)
  | pause =>
    obtain ⟨f1, f2, f3⟩ := Pause_frame env s w hr s1 w1 h
    intro hs
    by_cases hs0 : s.m_state = .STATE_SHUTDOWN
    · rw [(f2 hs0).2.1]; exact hi hs0
    · exact absurd hs (f3 hs0)
  | stop =>
    obtain ⟨f1, f2, f3⟩ := Stop_frame env s w hr s1 w1 h
    intro hs
    by_cases hs0 : s.m_state = .STATE_SHUTDOWN
    · rw [(f2 hs0).2.1]; exact hi hs0
    · exact absurd hs (f3 hs0)
  | shutdown =>
    simp only [step, Option.some.injEq] at h
    obtain ⟨g1, g2⟩ := Shutdown_frame env s w
    by_cases hs0 : s.m_state = .STATE_SHUTDOWN
    · rw [g1 hs0] at h
      simp only [Prod.mk.injEq] at h
      rw [← h.2.1]
      exact hi
    · have e := (g2 hs0).2
      rw [h] at e
      simp only at e
      subst e
      intro _
      exact ⟨rfl, rfl⟩
  | activate act =>
    simp only [step, Option.some.injEq] at h
    obtain ⟨_, _, a3, _, a5, a6⟩ := Activate_frame s w act
    rw [h] at a3 a5 a6
    simp only at a3 a5 a6
    intro hs
    have hs0 : s.m_state = .STATE_SHUTDOWN := a3 ▸ hs
    rw [a5]
    rcases a6 with a6 | a6
    · rw [a6]; exact hi hs0
    · exact ⟨a6, (hi hs0).2⟩
  | endOfStream =>
    obtain ⟨f1, f2, f3⟩ := EndOfStream_frame env s w hr s1 w1 h
    intro hs
    have hs0 : s.m_state = .STATE_SHUTDOWN := f1 ▸ hs
    rw [f2, f3 (by rw [hs0]; simp)]
    exact hi hs0
  | needsData =>
    simp only [step, Option.some.injEq, Prod.mk.injEq] at h
    rw [← h.2.1]; exact hi
  | getStreamDescriptor p =>
    simp only [step, Option.some.injEq, Prod.mk.injEq] at h
    rw [← h.2.1]; exact hi
  | getMediaSource p =>
    simp only [step, GetMediaSource] at h
    split at h
    · simp only [Option.some.injEq, Prod.mk.injEq] at h
      rw [← h.2.1]; exact hi
    · split at h <;>
      · simp only [Option.some.injEq, Prod.mk.injEq] at h
        rw [← h.2.1]; exact hi
  | queueEvent met st v =>
    rw [QueueEvent_frame env s w met st v hr s1 w1 h]; exact hi
  | beginGetEvent =>
    simp only [step, BeginGetEvent] at h
    split at h
    · rw [passThrough_frame env s w _ hr s1 w1 h]; exact hi
    · simp only [Option.some.injEq, Prod.mk.injEq] at h
      rw [← h.2.1]; exact hi
  | endGetEvent =>
    simp only [step, EndGetEvent] at h
    split at h
    · rw [passThrough_frame env s w _ hr s1 w1 h]; exact hi
    · simp only [Option.some.injEq, Prod.mk.injEq] at h
      rw [← h.2.1]; exact hi
  | getEvent f =>
    simp only [step, GetEvent] at h
    split at h
    · rw [passThrough_frame env s w _ hr s1 w1 h]; exact hi
    · simp only [Option.some.injEq, Prod.mk.injEq] at h
      rw [← h.2.1]; exact hi

/-- Every run keeps `ShutInv`. -/
theorem run_ShutInv (env : Env) : ∀ (ops : List Op) (s : FlvStream) (w : World)
    (s1 : FlvStream) (w1 : World),
    run env ops s w = some (s1, w1) → ShutInv s → ShutInv s1 := by
  intro ops
  induction ops with
  | nil =>
    intro s w s1 w1 h hi
    simp only [run, Option.some.injEq, Prod.mk.injEq] at h
    rw [← h.1]; exact hi
  | cons o os ih =>
    intro s w s1 w1 h hi
    simp only [run] at h
    cases hstep : step env o s w with
    | none => simp [hstep] at h
    | some r =>
      obtain ⟨hr, s2, w2⟩ := r
      simp only [hstep] at h
      exact ih s2 w2 s1 w1 h (step_ShutInv env o s w hr s2 w2 hstep hi)

theorem failed_MF_E_INVALIDREQUEST : FAILED MF_E_INVALIDREQUEST = true := by decide

theorem failed_MF_E_END_OF_STREAM : FAILED MF_E_END_OF_STREAM = true := by decide

/-- With an event queue the loop of `DispatchSamples` always ends. -/
theorem dispatchLoop_some (env : Env) (q : Nat) :
    ∀ (sq : List Nat) (rq : List (Option Nat)) (hr : HRESULT) (w : World),
      ∃ r, dispatchLoop env (some q) sq rq hr w = some r := by
  intro sq
  induction sq with
  | nil => intro rq hr w; exact ⟨⟨false, hr, [], rq, w⟩, by simp [dispatchLoop]⟩
  | cons a sq ih =>
    intro rq hr w
    cases rq with
    | nil => exact ⟨⟨false, hr, a :: sq, [], w⟩, by simp [dispatchLoop]⟩
    | cons t rq =>
      simp only [dispatchLoop, sinkInvoke]
      split
      · exact ⟨_, rfl⟩
      · split
        · exact ⟨_, rfl⟩
        · exact ih rq _ _

/-- What the loop of `DispatchSamples` does under any behaviour of the
collaborators: it removes the same number `k` of fronts from both queues; when
it ends normally all pairs were handed over and one queue is empty; when it
leaves by `goto done` the last removed pair is the one whose token attachment
or whose `MEMediaSample` event failed. -/
theorem dispatchLoop_gen (env : Env) (q : Option Nat) :
    ∀ (sq : List Nat) (rq : List (Option Nat)) (hr : HRESULT) (w : World) (r : LoopResult),
      FAILED hr = false → dispatchLoop env q sq rq hr w = some r →
      ∃ k, k ≤ sq.length ∧ k ≤ rq.length ∧ r.samples = sq.drop k ∧ r.requests = rq.drop k ∧
        (r.aborted = false → FAILED r.hr = false ∧ (r.samples = [] ∨ r.requests = []) ∧
          r.world.log = w.log ++ handoverCalls (sq.zip rq)) ∧
        (r.aborted = true → FAILED r.hr = true ∧ ∃ j p t, k = j + 1 ∧
          (sq.zip rq)[j]? = some (p, t) ∧
          (r.world.log = w.log ++ handoverCalls ((sq.zip rq).take j) ++ pairCalls (p, t) ∨
            ∃ tok, t = some tok ∧
              r.world.log = w.log ++ handoverCalls ((sq.zip rq).take j)
                ++ [.SetUnknown p tok])) := by
  intro sq
  induction sq with
  | nil =>
    intro rq hr w r hhr h
    simp only [dispatchLoop, Option.some.injEq] at h
    subst h
    exact ⟨0, le_refl _, Nat.zero_le _, rfl, rfl,
      fun _ => ⟨hhr, Or.inl rfl, by simp [handoverCalls]⟩, fun h => by simp at h⟩
  | cons a sq ih =>
    intro rq hr w r hhr h
    cases rq with
    | nil =>
      simp only [dispatchLoop, Option.some.injEq] at h
      subst h
      exact ⟨0, Nat.zero_le _, le_refl _, rfl, rfl,
        fun _ => ⟨hhr, Or.inr rfl, by simp [handoverCalls]⟩, fun h => by simp at h⟩
    | cons t rq =>
      -- the world and code after the optional token attachment
      have step2 : ∀ (w1 : World) (r : LoopResult),
          (match sinkInvoke env q (.QueueEventParamUnk .MEMediaSample a) w1 with
            | none => none
            | some r2 =>
              if FAILED r2.1 then some ⟨true, r2.1, sq, rq, r2.2⟩
              else dispatchLoop env q sq rq r2.1 r2.2) = some r →
          ∃ k, k ≤ (a :: sq).length ∧ k ≤ (t :: rq).length ∧
            r.samples = (a :: sq).drop k ∧ r.requests = (t :: rq).drop k ∧
            (r.aborted = false → FAILED r.hr = false ∧ (r.samples = [] ∨ r.requests = []) ∧
              r.world.log = w1.log ++ [.QueueEventParamUnk .MEMediaSample a]
                ++ handoverCalls (sq.zip rq)) ∧
            (r.aborted = true → FAILED r.hr = true ∧ ∃ j p t1, k = j + 1 ∧
              ((a :: sq).zip (t :: rq))[j]? = some (p, t1) ∧
              ((j = 0 ∧ r.world.log = w1.log ++ [.QueueEventParamUnk .MEMediaSample a]) ∨
               (∃ j1, j = j1 + 1 ∧
                (r.world.log = w1.log ++ [.QueueEventParamUnk .MEMediaSample a]
                    ++ handoverCalls ((sq.zip rq).take j1) ++ pairCalls (p, t1) ∨
                  ∃ tok, t1 = some tok ∧
                    r.world.log = w1.log ++ [.QueueEventParamUnk .MEMediaSample a]
                      ++ handoverCalls ((sq.zip rq).take j1) ++ [.SetUnknown p tok])))) := by
        intro w1 r h
        cases q with
        | none => simp [sinkInvoke] at h
        | some qv =>
          simp only [sinkInvoke] at h
          by_cases hf : FAILED (invoke env (.QueueEventParamUnk .MEMediaSample a) w1).1 = true
          · simp only [hf, if_true, Option.some.injEq] at h
            subst h
            refine ⟨1, by simp, by simp, rfl, rfl, fun h => by simp at h, fun _ => ⟨hf, ?_⟩⟩
            exact ⟨0, a, t, rfl, by simp, Or.inl ⟨rfl, by simp [invoke]⟩⟩
          · simp only [hf, if_false, Bool.false_eq_true] at h
            have hf2 : FAILED (invoke env (.QueueEventParamUnk .MEMediaSample a) w1).1 = false := by
              simpa using hf
            obtain ⟨k, k1, k2, e1, e2, na, ab⟩ := ih rq _ _ r hf2 h
            refine ⟨k + 1, by simpa using k1, by simpa using k2, by simpa using e1,
              by simpa using e2, ?_, ?_⟩
            · intro hna
              obtain ⟨f, o, l⟩ := na hna
              exact ⟨f, o, by rw [l]; simp [invoke]⟩
            · intro hab
              obtain ⟨f, j, p, t1, kj, ix, l⟩ := ab hab
              refine ⟨f, j + 1, p, t1, by omega, by simpa using ix, Or.inr ⟨j, rfl, ?_⟩⟩
              rcases l with l | ⟨tok, ht, l⟩
              · exact Or.inl (by rw [l]; simp [invoke])
              · exact Or.inr ⟨tok, ht, by rw [l]; simp [invoke]⟩
      cases t with
      | none =>
        simp only [dispatchLoop, failed_S_OK, Bool.false_eq_true, if_false] at h
        obtain ⟨k, k1, k2, e1, e2, na, ab⟩ := step2 w r h
        refine ⟨k, k1, k2, e1, e2, ?_, ?_⟩
        · intro hna
          obtain ⟨f, o, l⟩ := na hna
          exact ⟨f, o, by rw [l]; simp [handoverCalls, pairCalls, List.zip]⟩
        · intro hab
          obtain ⟨f, j, p, t1, kj, ix, l⟩ := ab hab
          refine ⟨f, j, p, t1, kj, ix, ?_⟩
          rcases l with ⟨j0, l⟩ | ⟨j1, hj, l⟩
          · subst j0
            simp only [List.zip_cons_cons, List.getElem?_cons_zero, Option.some.injEq,
              Prod.mk.injEq] at ix
            obtain ⟨hp, ht⟩ := ix
            subst hp ht
            exact Or.inl (by rw [l]; simp [handoverCalls, pairCalls])
          · subst hj
            rcases l with l | ⟨tok, ht, l⟩
            · exact Or.inl (by rw [l]; simp [handoverCalls, pairCalls, List.zip])
            · exact Or.inr ⟨tok, ht, by rw [l]; simp [handoverCalls, pairCalls, List.zip]⟩
      | some tk =>
        simp only [dispatchLoop] at h
        by_cases hf : FAILED (invoke env (.SetUnknown a tk) w).1 = true
        · simp only [hf, if_true, Option.some.injEq] at h
          subst h
          refine ⟨1, by simp, by simp, rfl, rfl, fun h => by simp at h, fun _ => ⟨hf, ?_⟩⟩
          exact ⟨0, a, some tk, rfl, by simp,
            Or.inr ⟨tk, rfl, by simp [invoke, handoverCalls]⟩⟩
        · simp only [hf, if_false, Bool.false_eq_true] at h
          obtain ⟨k, k1, k2, e1, e2, na, ab⟩ := step2 _ r h
          refine ⟨k, k1, k2, e1, e2, ?_, ?_⟩
          · intro hna
            obtain ⟨f, o, l⟩ := na hna
            exact ⟨f, o, by rw [l]; simp [handoverCalls, pairCalls, List.zip, invoke]⟩
          · intro hab
            obtain ⟨f, j, p, t1, kj, ix, l⟩ := ab hab
            refine ⟨f, j, p, t1, kj, ix, ?_⟩
            rcases l with ⟨j0, l⟩ | ⟨j1, hj, l⟩
            · subst j0
              simp only [List.zip_cons_cons, List.getElem?_cons_zero, Option.some.injEq,
                Prod.mk.injEq] at ix
              obtain ⟨hp, ht⟩ := ix
              subst hp ht
              exact Or.inl (by rw [l]; simp [handoverCalls, pairCalls, invoke])
            · subst hj
              rcases l with l | ⟨tok, ht, l⟩
              · exact Or.inl (by rw [l]; simp [handoverCalls, pairCalls, List.zip, invoke])
              · exact Or.inr ⟨tok, ht,
                  by rw [l]; simp [handoverCalls, pairCalls, List.zip, invoke]⟩

/-- `DispatchSamples` always returns `S_OK`. -/
theorem DispatchSamples_hr (env : Env) (s : FlvStream) (w : World)
    (hr : HRESULT) (s1 : FlvStream) (w1 : World)
    (h : DispatchSamples env s w = some (hr, s1, w1)) : hr = S_OK := by
  unfold DispatchSamples at h
  split at h
  · simp only [Option.some.injEq, Prod.mk.injEq] at h
    exact h.1.symm
  · split at h
    · exact absurd h (by simp)
    · simp only at h
      split at h
      · exact absurd h (by simp)
      · simp only [Option.some.injEq, Prod.mk.injEq] at h
        exact h.1.symm

/-- The block after the loop makes exactly the calls of `terminalCalls`. -/
theorem dispatchTerminal_log (env : Env) (s : FlvStream) (hr : HRESULT) (w : World)
    (hr1 : HRESULT) (w1 : World) (h : dispatchTerminal env s hr w = some (hr1, w1)) :
    w1.log = w.log ++ terminalCalls s := by
  unfold dispatchTerminal at h
  unfold terminalCalls
  by_cases c1 : (s.m_Samples.isEmpty && s.eos) = true
  · simp only [c1, if_true] at h ⊢
    cases hq : s.event_queue with
    | none => simp [hq, sinkInvoke] at h
    | some qv =>
      simp only [hq, sinkInvoke, Option.some.injEq, Prod.mk.injEq, invoke] at h
      rw [← h.2]
      simp
  · simp only [c1, if_false, Bool.false_eq_true] at h ⊢
    by_cases c2 : NeedsData s = true
    · simp only [c2, if_true, Option.some.injEq, Prod.mk.injEq, invoke] at h ⊢
      rw [← h.2]
    · simp only [c2, if_false, Bool.false_eq_true, Option.some.injEq, Prod.mk.injEq] at h ⊢
      rw [← h.2]
      simp

/-- A dispatch pass on a started stream, read back from its result: the
queues are those the loop leaves; after a `goto done` the only further call is
the error report; otherwise the calls of the terminal block follow, and then
at most one error report. -/
theorem DispatchSamples_inv (env : Env) (s : FlvStream) (w : World)
    (hr : HRESULT) (s1 : FlvStream) (w1 : World)
    (hst : s.m_state = .STATE_STARTED)
    (h : DispatchSamples env s w = some (hr, s1, w1)) :
    ∃ r, dispatchLoop env s.event_queue s.m_Samples s.m_Requests S_OK w = some r ∧
      s1 = { s with m_Samples := r.samples, m_Requests := r.requests } ∧
      (r.aborted = true → w1.log = r.world.log ++ [.SourceQueueEvent .MEError r.hr]) ∧
      (r.aborted = false → ∃ errs, w1.log = r.world.log ++ terminalCalls s1 ++ errs ∧
        (errs = [] ∨ ∃ c, errs = [.SourceQueueEvent .MEError c])) := by
  obtain ⟨st, act, eos, rq, sq, eq, sd⟩ := s
  simp only at hst
  subst hst
  unfold DispatchSamples at h
  simp only [ne_eq, not_true_eq_false, if_false] at h
  cases hl : dispatchLoop env eq sq rq S_OK w with
  | none => simp [hl] at h
  | some r =>
    simp only [hl] at h
    obtain ⟨k, _, _, _, _, na, ab⟩ := dispatchLoop_gen env eq sq rq S_OK w r failed_S_OK hl
    refine ⟨r, rfl, ?_⟩
    by_cases hab : r.aborted = true
    · simp only [hab, if_true, Option.some.injEq, Prod.mk.injEq] at h
      obtain ⟨_, h1, h2⟩ := h
      subst h1
      refine ⟨rfl, fun _ => ?_, fun hna => by simp [hab] at hna⟩
      rw [← h2]
      simp [dispatchDone, (ab hab).1, invoke]
    · have hna : r.aborted = false := by simpa using hab
      simp only [hna, Bool.false_eq_true, if_false] at h
      split at h
      · exact absurd h (by simp)
      · rename_i hr2 w2 ht
        simp only [Option.some.injEq, Prod.mk.injEq] at h
        obtain ⟨_, h1, h2⟩ := h
        subst h1
        have tl := dispatchTerminal_log env _ _ _ _ _ ht
        obtain ⟨errs, le, he⟩ := dispatchDone_log env
          ⟨.STATE_STARTED, act, eos, r.requests, r.samples, eq, sd⟩ hr2 w2
        refine ⟨rfl, fun hh => by simp [hna] at hh, fun _ => ⟨errs, ?_, ?_⟩⟩
        · rw [← h2, le, tl]
        · rcases he with he | he
          · exact Or.inl he
          · exact Or.inr ⟨_, he⟩

/-- With an event queue the block after the loop never faults. -/
theorem dispatchTerminal_total (env : Env) (s : FlvStream) (hr : HRESULT) (w : World)
    (q : Nat) (hq : s.event_queue = some q) :
    ∃ x, dispatchTerminal env s hr w = some x := by
  unfold dispatchTerminal
  simp only [hq, sinkInvoke]
  split
  · exact ⟨_, rfl⟩
  · split <;> exact ⟨_, rfl⟩

/-- A dispatch pass never faults on a stream whose event queue is there
whenever it is started. -/
theorem DispatchSamples_total (env : Env) (s : FlvStream) (w : World)
    (hq : s.m_state = .STATE_STARTED → ∃ q, s.event_queue = some q) :
    ∃ r, DispatchSamples env s w = some r := by
  obtain ⟨st, act, eos, rq, sq, eq, sd⟩ := s
  simp only at hq
  unfold DispatchSamples
  by_cases hst : st = .STATE_STARTED
  · obtain ⟨q, hq⟩ := hq hst
    subst hq hst
    obtain ⟨r, hl⟩ := dispatchLoop_some env q sq rq S_OK w
    simp only [ne_eq, not_true_eq_false, if_false, hl]
    by_cases hab : r.aborted = true
    · simp only [hab, if_true]
      exact ⟨_, rfl⟩
    · simp only [hab, Bool.false_eq_true, if_false]
      obtain ⟨x, hx⟩ := dispatchTerminal_total env
        ⟨.STATE_STARTED, act, eos, r.requests, r.samples, some q, sd⟩ r.hr r.world q rfl
      simp only [hx]
      exact ⟨_, rfl⟩
  · simp only [ne_eq, hst, not_false_eq_true, if_true]
    exact ⟨_, rfl⟩

/-- A dispatch pass on a started stream with an event queue, from the result
of its loop. -/
theorem DispatchSamples_of_loop (env : Env) (s : FlvStream) (w : World) (q : Nat)
    (r : LoopResult) (hst : s.m_state = .STATE_STARTED) (hq : s.event_queue = some q)
    (hl : dispatchLoop env (some q) s.m_Samples s.m_Requests S_OK w = some r) :
    ∃ w1, DispatchSamples env s w
        = some (S_OK, { s with m_Samples := r.samples, m_Requests := r.requests }, w1) ∧
      (r.aborted = true → FAILED r.hr = true ∧
        w1.log = r.world.log ++ [.SourceQueueEvent .MEError r.hr]) ∧
      (r.aborted = false → ∃ errs, w1.log = r.world.log
          ++ terminalCalls { s with m_Samples := r.samples, m_Requests := r.requests } ++ errs ∧
        (errs = [] ∨ ∃ c, errs = [.SourceQueueEvent .MEError c])) := by
  obtain ⟨x, hx⟩ := DispatchSamples_total env s w (fun _ => ⟨q, hq⟩)
  obtain ⟨hr, s1, w1⟩ := x
  obtain ⟨r1, hl1, e1, ab, na⟩ := DispatchSamples_inv env s w hr s1 w1 hst hx
  rw [hq, hl] at hl1
  simp only [Option.some.injEq] at hl1
  subst hl1
  have hhr := DispatchSamples_hr env s w hr s1 w1 hx
  subst hhr e1
  obtain ⟨k, _, _, _, _, _, gab⟩ :=
    dispatchLoop_gen env (some q) s.m_Samples s.m_Requests S_OK w r failed_S_OK hl
  exact ⟨w1, hx, fun h => ⟨(gab h).1, ab h⟩, na⟩

/-- A request that passes the checks and is inserted is the dispatch pass on
the stream with the token appended. -/
theorem RequestSample_accepted (env : Env) (s : FlvStream) (w : World) (t : Option Nat)
    (h1 : s.m_state ≠ .STATE_SHUTDOWN) (h2 : s.m_state ≠ .STATE_STOPPED)
    (h3 : s.activated = true) (h4 : (s.eos && s.m_Samples.isEmpty) = false)
    (ha : FAILED (env.alloc w.tick) = false) :
    RequestSample env s w t
      = DispatchSamples env { s with m_Requests := s.m_Requests ++ [t] }
          { w with tick := w.tick + 1 } := by
  obtain ⟨st, act, eos, rq, sq, eq, sd⟩ := s
  simp only at h1 h2 h3 h4
  subst h3
  have hc := CheckShutdown_ok ⟨st, true, eos, rq, sq, eq, sd⟩ h1
  simp only [RequestSample, hc, failed_S_OK, Bool.false_eq_true, if_false,
    h2, IsActive, Bool.not_true, h4, InsertBack, ha]
  cases hd : DispatchSamples env ⟨st, true, eos, rq ++ [t], sq, eq, sd⟩
      { w with tick := w.tick + 1 } with
  | none => rfl
  | some x =>
    obtain ⟨hr, s1, w1⟩ := x
    have := DispatchSamples_hr env _ _ hr s1 w1 hd
    subst this
    simp [requestDone, failed_S_OK]

/-- A delivery whose insertion succeeds is the dispatch pass on the stream
with the sample appended. -/
theorem DeliverPayload_accepted (env : Env) (s : FlvStream) (w : World) (x : Nat)
    (ha : FAILED (env.alloc w.tick) = false) :
    DeliverPayload env s w x
      = DispatchSamples env { s with m_Samples := s.m_Samples ++ [x] }
          { w with tick := w.tick + 1 } := by
  simp [DeliverPayload, InsertBack, ha, succeeded_S_OK]

theorem needDataCount_append (a b : List Call) :
    needDataCount (a ++ b) = needDataCount a + needDataCount b := by
  simp [needDataCount]

theorem handoverCalls_take_succ (l : List (Nat × Option Nat)) (j : Nat) (p : Nat × Option Nat)
    (h : l[j]? = some p) :
    handoverCalls (l.take (j + 1)) = handoverCalls (l.take j) ++ pairCalls p := by
  rw [List.take_succ, h, handoverCalls_append]
  simp [handoverCalls]

theorem deliveryCalls_pairCalls (p : Nat × Option Nat) :
    deliveryCalls (pairCalls p) = pairCalls p := by
  obtain ⟨a, t⟩ := p
  cases t <;> rfl

/-- What a dispatch pass resolves, under any behaviour of the collaborators:
it removes the same number `k` of fronts from both queues, and its hand-over
calls are those of the `k` removed pairs in order, except that the last pair
may have stopped at a failed token attachment. -/
theorem DispatchSamples_resolution (env : Env) (s : FlvStream) (w : World)
    (hr : HRESULT) (s1 : FlvStream) (w1 : World)
    (h : DispatchSamples env s w = some (hr, s1, w1)) :
    ∃ k add, k ≤ s.m_Samples.length ∧ s1.m_Requests = s.m_Requests.drop k ∧
      s1.m_Samples = s.m_Samples.drop k ∧ w1.log = w.log ++ add ∧
      (deliveryCalls add = handoverCalls ((s.m_Samples.zip s.m_Requests).take k) ∨
        ∃ j p tok, k = j + 1 ∧ (s.m_Samples.zip s.m_Requests)[j]? = some (p, some tok) ∧
          deliveryCalls add = handoverCalls ((s.m_Samples.zip s.m_Requests).take j)
            ++ [.SetUnknown p tok]) := by
  by_cases hst : s.m_state = .STATE_STARTED
  · obtain ⟨r, hl, e1, ab, na⟩ := DispatchSamples_inv env s w hr s1 w1 hst h
    obtain ⟨k, k1, k2, es, er, gna, gab⟩ :=
      dispatchLoop_gen env s.event_queue s.m_Samples s.m_Requests S_OK w r failed_S_OK hl
    subst e1
    by_cases hab : r.aborted = true
    · obtain ⟨_, j, p, t, kj, ix, l⟩ := gab hab
      have lw := ab hab
      rcases l with l | ⟨tok, ht, l⟩
      · refine ⟨k, handoverCalls ((s.m_Samples.zip s.m_Requests).take j) ++ pairCalls (p, t)
          ++ [.SourceQueueEvent .MEError r.hr], k1, er, es, ?_, Or.inl ?_⟩
        · rw [lw, l]; simp
        · rw [kj, handoverCalls_take_succ _ j (p, t) ix, deliveryCalls_append,
            deliveryCalls_append, deliveryCalls_handover, deliveryCalls_pairCalls]
          simp [deliveryCalls, Call.isDelivery]
      · subst ht
        refine ⟨k, handoverCalls ((s.m_Samples.zip s.m_Requests).take j) ++ [.SetUnknown p tok]
          ++ [.SourceQueueEvent .MEError r.hr], k1, er, es, ?_, Or.inr ⟨j, p, tok, kj, ix, ?_⟩⟩
        · rw [lw, l]; simp
        · rw [deliveryCalls_append, deliveryCalls_append, deliveryCalls_handover]
          simp [deliveryCalls, Call.isDelivery]
    · have hna : r.aborted = false := by simpa using hab
      obtain ⟨errs, lw, he⟩ := na hna
      obtain ⟨_, ho, l⟩ := gna hna
      refine ⟨k, handoverCalls (s.m_Samples.zip s.m_Requests)
        ++ terminalCalls { s with m_Samples := r.samples, m_Requests := r.requests } ++ errs,
        k1, er, es, ?_, Or.inl ?_⟩
      · rw [lw, l]; simp
      · have hk : (s.m_Samples.zip s.m_Requests).length ≤ k := by
          rw [List.length_zip]
          rcases ho with ho | ho
          · rw [es, List.drop_eq_nil_iff] at ho
            exact le_trans (min_le_left _ _) ho
          · rw [er, List.drop_eq_nil_iff] at ho
            exact le_trans (min_le_right _ _) ho
        rw [List.take_of_length_le hk, deliveryCalls_append, deliveryCalls_append,
          deliveryCalls_handover, deliveryCalls_terminal]
        rcases he with he | ⟨c, he⟩ <;> subst he <;> simp [deliveryCalls, Call.isDelivery]
  · obtain ⟨_, _, _, _, _, f6⟩ := DispatchSamples_frame env s w hr s1 w1 h
    obtain ⟨e1, e2⟩ := f6 hst
    subst e1 e2
    exact ⟨0, [], Nat.zero_le _, rfl, rfl, by simp, Or.inl (by simp [handoverCalls, deliveryCalls])⟩

theorem requestDone_log (env : Env) (s : FlvStream) (hr : HRESULT) (w : World) :
    ∃ add, (requestDone env s hr w).2.2.log = w.log ++ add ∧ deliveryCalls add = [] := by
  unfold requestDone
  split
  · exact ⟨[.SourceQueueEvent .MEError hr], by simp [invoke], rfl⟩
  · exact ⟨[], by simp, rfl⟩

/-- The ways a sample request can end: rejected or not inserted (stream
unchanged, no hand-over call), or accepted and followed by a dispatch pass. -/
theorem RequestSample_cases (env : Env) (s : FlvStream) (w : World) (t : Option Nat)
    (hr : HRESULT) (s1 : FlvStream) (w1 : World)
    (h : RequestSample env s w t = some (hr, s1, w1)) :
    (s1 = s ∧ ∃ add, w1.log = w.log ++ add ∧ deliveryCalls add = []) ∨
    (s.m_state ≠ .STATE_SHUTDOWN ∧ s.m_state ≠ .STATE_STOPPED ∧ s.activated = true ∧
      DispatchSamples env { s with m_Requests := s.m_Requests ++ [t] }
        { w with tick := w.tick + 1 } = some (hr, s1, w1)) := by
  have rej : ∀ (c : HRESULT) (w0 : World), w0.log = w.log →
      some (requestDone env s c w0) = some (hr, s1, w1) →
      s1 = s ∧ ∃ add, w1.log = w.log ++ add ∧ deliveryCalls add = [] := by
    intro c w0 hw0 hh
    simp only [Option.some.injEq] at hh
    have f := requestDone_frame env s c w0
    obtain ⟨add, l, d⟩ := requestDone_log env s c w0
    rw [hh] at f l
    simp only at f l
    exact ⟨f, add, by rw [l, hw0], d⟩
  by_cases h1 : s.m_state = .STATE_SHUTDOWN
  · left
    simp only [RequestSample, CheckShutdown_shut s h1, failed_MF_E_SHUTDOWN, if_true] at h
    exact rej _ w rfl h
  · by_cases h2 : s.m_state = .STATE_STOPPED
    · left
      simp only [RequestSample, CheckShutdown_ok s h1, failed_S_OK, Bool.false_eq_true,
        if_false, h2, if_true] at h
      exact rej _ w rfl h
    · by_cases h3 : s.activated = true
      · by_cases h4 : (s.eos && s.m_Samples.isEmpty) = true
        · left
          simp only [RequestSample, CheckShutdown_ok s h1, failed_S_OK, Bool.false_eq_true,
            if_false, h2, IsActive, h3, Bool.not_true, h4, if_true] at h
          exact rej _ w rfl h
        · by_cases h5 : FAILED (env.alloc w.tick) = true
          · left
            simp only [RequestSample, CheckShutdown_ok s h1, failed_S_OK, Bool.false_eq_true,
              if_false, h2, IsActive, h3, Bool.not_true, h4, InsertBack, h5, if_true] at h
            exact rej _ { w with tick := w.tick + 1 } rfl h
          · right
            rw [RequestSample_accepted env s w t h1 h2 h3 (by simpa using h4)
              (by simpa using h5)] at h
            exact ⟨h1, h2, h3, h⟩
      · left
        have h3f : s.activated = false := by simpa using h3
        simp only [RequestSample, CheckShutdown_ok s h1, failed_S_OK, Bool.false_eq_true,
          if_false, h2, IsActive, h3f, Bool.not_false, if_true] at h
        exact rej _ w rfl h

/-- The ways a delivery can end: not inserted (nothing changes but the tick),
or inserted and followed by a dispatch pass. -/
theorem DeliverPayload_cases (env : Env) (s : FlvStream) (w : World) (x : Nat)
    (hr : HRESULT) (s1 : FlvStream) (w1 : World)
    (h : DeliverPayload env s w x = some (hr, s1, w1)) :
    (s1 = s ∧ w1.log = w.log) ∨
    DispatchSamples env { s with m_Samples := s.m_Samples ++ [x] }
      { w with tick := w.tick + 1 } = some (hr, s1, w1) := by
  by_cases h5 : FAILED (env.alloc w.tick) = true
  · left
    have : ¬ (0 ≤ env.alloc w.tick) := by simpa [FAILED] using h5
    simp only [DeliverPayload, InsertBack, h5, if_true, SUCCEEDED, this, decide_False,
      Bool.false_eq_true, if_false, Option.some.injEq, Prod.mk.injEq] at h
    exact ⟨h.2.1.symm, by rw [← h.2.2]⟩
  · right
    rw [DeliverPayload_accepted env s w x (by simpa using h5)] at h
    exact h

/-- The ways `Start` can end: shut down or the event not queued (stream
unchanged), or the event queued and a dispatch pass run on the started
stream. -/
theorem Start_cases (env : Env) (s : FlvStream) (w : World) (v : Option Nat)
    (hr : HRESULT) (s1 : FlvStream) (w1 : World)
    (h : Start env s w v = some (hr, s1, w1)) :
    (s1 = s ∧ ∃ add, w1.log = w.log ++ add ∧ deliveryCalls add = []) ∨
    (s.m_state ≠ .STATE_SHUTDOWN ∧
      DispatchSamples env { s with m_state := .STATE_STARTED }
        { tick := w.tick + 1,
          log := w.log ++ [.QueueEventParamVar .MEStreamStarted S_OK v] }
        = some (hr, s1, w1)) := by
  by_cases h1 : s.m_state = .STATE_SHUTDOWN
  · left
    obtain ⟨_, f2, _⟩ := Start_frame env s w v hr s1 w1 h
    obtain ⟨_, e1, e2⟩ := f2 h1
    exact ⟨e1, [], by rw [e2]; simp, rfl⟩
  · simp only [Start, CheckShutdown_ok s h1, succeeded_S_OK, if_true, QueueEvent] at h
    cases hq : s.event_queue with
    | none => simp [hq, sinkInvoke] at h
    | some q =>
      simp only [hq, sinkInvoke] at h
      by_cases hf : SUCCEEDED
          (invoke env (.QueueEventParamVar .MEStreamStarted S_OK v) w).1 = true
      · right
        simp only [hf, if_true] at h
        exact ⟨h1, h⟩
      · left
        simp only [hf, Bool.false_eq_true, if_false, Option.some.injEq, Prod.mk.injEq] at h
        refine ⟨h.2.1.symm, [.QueueEventParamVar .MEStreamStarted S_OK v], ?_, rfl⟩
        rw [← h.2.2]
        rfl

/-- Every public operation is of one of nine kinds: it leaves the stream
unchanged and makes no hand-over call; or it is an accepted request, an
inserted delivery, a `Start` whose event was queued, or `EndOfStream`, each
followed by a dispatch pass; or it is `Pause`, `Stop` or `Shutdown` on a
stream that is not shut down; or it is an `Activate` that flips the flag. -/
theorem step_cases (env : Env) (o : Op) (s : FlvStream) (w : World)
    (hr : HRESULT) (s1 : FlvStream) (w1 : World)
    (h : step env o s w = some (hr, s1, w1)) :
    (s1 = s ∧ ∃ add, w1.log = w.log ++ add ∧ deliveryCalls add = []) ∨
    (∃ t, o = .requestSample t ∧ s.m_state ≠ .STATE_SHUTDOWN ∧
      s.m_state ≠ .STATE_STOPPED ∧ s.activated = true ∧
      DispatchSamples env { s with m_Requests := s.m_Requests ++ [t] }
        { w with tick := w.tick + 1 } = some (hr, s1, w1)) ∨
    (∃ x, o = .deliverSample x ∧
      DispatchSamples env { s with m_Samples := s.m_Samples ++ [x] }
        { w with tick := w.tick + 1 } = some (hr, s1, w1)) ∨
    (∃ v, o = .start v ∧ s.m_state ≠ .STATE_SHUTDOWN ∧
      DispatchSamples env { s with m_state := .STATE_STARTED }
        { tick := w.tick + 1,
          log := w.log ++ [.QueueEventParamVar .MEStreamStarted S_OK v] }
        = some (hr, s1, w1)) ∨
    (o = .endOfStream ∧ DispatchSamples env { s with eos := true } w = some (hr, s1, w1)) ∨
    (o = .pause ∧ s.m_state ≠ .STATE_SHUTDOWN ∧ s1 = { s with m_state := .STATE_PAUSED } ∧
      w1.log = w.log ++ [.QueueEventParamVar .MEStreamPaused S_OK none]) ∨
    (o = .stop ∧ s.m_state ≠ .STATE_SHUTDOWN ∧
      s1 = { s with m_Requests := [], m_Samples := [], m_state := .STATE_STOPPED } ∧
      w1.log = w.log ++ [.QueueEventParamVar .MEStreamStopped S_OK none]) ∨
    (o = .shutdown ∧ s.m_state ≠ .STATE_SHUTDOWN ∧
      s1 = { s with m_state := .STATE_SHUTDOWN, m_Samples := [], m_Requests := [],
                    event_queue := none, stream_descriptor := none } ∧
      ∃ add, w1.log = w.log ++ add ∧ deliveryCalls add = []) ∨
    (∃ act, o = .activate act ∧ act ≠ s.activated ∧ w1 = w ∧
      s1 = if act then { s with activated := true }
           else { s with activated := false, m_Samples := [], m_Requests := [] }) := by
  have through : ∀ (c : Call), Call.isDelivery c = false →
      (match sinkInvoke env s.event_queue c w with
        | none => none
        | some r => some (r.1, s, r.2)) = some (hr, s1, w1) →
      (s1 = s ∧ ∃ add, w1.log = w.log ++ add ∧ deliveryCalls add = []) := by
    intro c hc hh
    cases hq : s.event_queue with
    | none => simp [hq, sinkInvoke] at hh
    | some q =>
      simp only [hq, sinkInvoke, Option.some.injEq, Prod.mk.injEq] at hh
      refine ⟨hh.2.1.symm, [c], ?_, ?_⟩
      · rw [← hh.2.2]; rfl
      · simp [deliveryCalls, hc]
  have shut : ∀ (hh : some (MF_E_SHUTDOWN, s, w) = some (hr, s1, w1)),
      (s1 = s ∧ ∃ add, w1.log = w.log ++ add ∧ deliveryCalls add = []) := by
    intro hh
    simp only [Option.some.injEq, Prod.mk.injEq] at hh
    exact ⟨hh.2.1.symm, [], by rw [← hh.2.2]; simp, rfl⟩
  cases o with
  | requestSample t =>
    rcases RequestSample_cases env s w t hr s1 w1 h with c | c
    · exact Or.inl c
    · exact Or.inr (Or.inl ⟨t, rfl, c⟩)
  | deliverSample x =>
    rcases DeliverPayload_cases env s w x hr s1 w1 h with c | c
    · exact Or.inl ⟨c.1, [], by rw [c.2]; simp, rfl⟩
    · exact Or.inr (Or.inr (Or.inl ⟨x, rfl, c⟩))
  | start v =>
    rcases Start_cases env s w v hr s1 w1 h with c | c
    · exact Or.inl c
    · exact Or.inr (Or.inr (Or.inr (Or.inl ⟨v, rfl, c⟩)))
  | endOfStream =>
    exact Or.inr (Or.inr (Or.inr (Or.inr (Or.inl ⟨rfl, h⟩))))
  | pause =>
    by_cases h1 : s.m_state = .STATE_SHUTDOWN
    · simp only [step, Pause, CheckShutdown_shut s h1, succeeded_MF_E_SHUTDOWN,
        Bool.false_eq_true, if_false] at h
      exact Or.inl (shut h)
    · have hc2 : CheckShutdown { s with m_state := .STATE_PAUSED } = S_OK :=
        CheckShutdown_ok _ (by simp)
      simp only [step, Pause, CheckShutdown_ok s h1, succeeded_S_OK, if_true, QueueEvent,
        hc2] at h
      cases hq : s.event_queue with
      | none => simp [hq, sinkInvoke] at h
      | some q =>
        simp only [hq, sinkInvoke, Option.some.injEq, Prod.mk.injEq] at h
        refine Or.inr (Or.inr (Or.inr (Or.inr (Or.inr (Or.inl ⟨rfl, h1, ?_, ?_⟩)))))
        · rw [← h.2.1]
        · rw [← h.2.2]; rfl
  | stop =>
    by_cases h1 : s.m_state = .STATE_SHUTDOWN
    · simp only [step, Stop, CheckShutdown_shut s h1, succeeded_MF_E_SHUTDOWN,
        Bool.false_eq_true, if_false] at h
      exact Or.inl (shut h)
    · have hc2 : CheckShutdown
          { s with m_Requests := [], m_Samples := [], m_state := .STATE_STOPPED } = S_OK :=
        CheckShutdown_ok _ (by simp)
      simp only [step, Stop, CheckShutdown_ok s h1, succeeded_S_OK, if_true, QueueEvent,
        hc2] at h
      cases hq : s.event_queue with
      | none => simp [hq, sinkInvoke] at h
      | some q =>
        simp only [hq, sinkInvoke, Option.some.injEq, Prod.mk.injEq] at h
        refine Or.inr (Or.inr (Or.inr (Or.inr (Or.inr (Or.inr (Or.inl ⟨rfl, h1, ?_, ?_⟩))))))
        · rw [← h.2.1]
        · rw [← h.2.2]; rfl
  | shutdown =>
    simp only [step, Option.some.injEq] at h
    by_cases h1 : s.m_state = .STATE_SHUTDOWN
    · rw [(Shutdown_frame env s w).1 h1] at h
      exact Or.inl (shut (congrArg some h))
    · refine Or.inr (Or.inr (Or.inr (Or.inr (Or.inr (Or.inr (Or.inr (Or.inl
        ⟨rfl, h1, ?_, ?_⟩)))))))
      · have e := ((Shutdown_frame env s w).2 h1).2
        rw [h] at e
        exact e
      · have e : (Shutdown env s w).2.2 = w1 := by rw [h]
        simp only [Shutdown, CheckShutdown_ok s h1, succeeded_S_OK, if_true] at e
        cases hq : s.event_queue with
        | none =>
          simp only [hq] at e
          exact ⟨[], by rw [← e]; simp, rfl⟩
        | some q =>
          simp only [hq] at e
          exact ⟨[.EventQueueShutdown], by rw [← e]; rfl, rfl⟩
  | activate act =>
    simp only [step, Option.some.injEq] at h
    by_cases ha : act = s.activated
    · simp only [Activate, ha, if_true, Prod.mk.injEq] at h
      exact Or.inl ⟨h.2.1.symm, [], by rw [← h.2.2]; simp, rfl⟩
    · refine Or.inr (Or.inr (Or.inr (Or.inr (Or.inr (Or.inr (Or.inr (Or.inr
        ⟨act, rfl, ha, ?_, ?_⟩)))))))
      · have e : (Activate s w act).2.2 = w1 := by rw [h]
        rw [← e, (Activate_frame s w act).2.1]
      · have e : (Activate s w act).2.1 = s1 := by rw [h]
        rw [← e]
        cases act <;> simp [Activate, ha]
  | needsData =>
    simp only [step, Option.some.injEq, Prod.mk.injEq] at h
    exact Or.inl ⟨h.2.1.symm, [], by rw [← h.2.2]; simp, rfl⟩
  | getStreamDescriptor p =>
    simp only [step, Option.some.injEq, Prod.mk.injEq] at h
    exact Or.inl ⟨h.2.1.symm, [], by rw [← h.2.2]; simp, rfl⟩
  | getMediaSource p =>
    simp only [step, GetMediaSource] at h
    split at h
    · simp only [Option.some.injEq, Prod.mk.injEq] at h
      exact Or.inl ⟨h.2.1.symm, [], by rw [← h.2.2]; simp, rfl⟩
    · split at h
      · simp only [Option.some.injEq, Prod.mk.injEq] at h
        exact Or.inl ⟨h.2.1.symm, [.SourceQueryInterface], by rw [← h.2.2]; rfl, rfl⟩
      · simp only [Option.some.injEq, Prod.mk.injEq] at h
        exact Or.inl ⟨h.2.1.symm, [], by rw [← h.2.2]; simp, rfl⟩
  | queueEvent met st v =>
    simp only [step, QueueEvent] at h
    split at h
    · exact Or.inl (through (.QueueEventParamVar met st v) rfl h)
    · simp only [Option.some.injEq, Prod.mk.injEq] at h
      exact Or.inl ⟨h.2.1.symm, [], by rw [← h.2.2]; simp, rfl⟩
  | beginGetEvent =>
    simp only [step, BeginGetEvent] at h
    split at h
    · exact Or.inl (through .EventQueueBeginGetEvent rfl h)
    · simp only [Option.some.injEq, Prod.mk.injEq] at h
      exact Or.inl ⟨h.2.1.symm, [], by rw [← h.2.2]; simp, rfl⟩
  | endGetEvent =>
    simp only [step, EndGetEvent] at h
    split at h
    · exact Or.inl (through .EventQueueEndGetEvent rfl h)
    · simp only [Option.some.injEq, Prod.mk.injEq] at h
      exact Or.inl ⟨h.2.1.symm, [], by rw [← h.2.2]; simp, rfl⟩
  | getEvent f =>
    simp only [step, GetEvent] at h
    split at h
    · exact Or.inl (through (.EventQueueGetEvent f) rfl h)
    · simp only [Option.some.injEq, Prod.mk.injEq] at h
      exact Or.inl ⟨h.2.1.symm, [], by rw [← h.2.2]; simp, rfl⟩

/-- No public operation faults on a stream whose event queue is there as long
as it is not shut down. -/
theorem step_total (env : Env) (o : Op) (s : FlvStream) (w : World)
    (hq : s.m_state ≠ .STATE_SHUTDOWN → ∃ q, s.event_queue = some q) :
    ∃ x, step env o s w = some x := by
  have disp : ∀ (s2 : FlvStream) (w2 : World), s2.event_queue = s.event_queue →
      (s2.m_state = .STATE_STARTED → s.m_state ≠ .STATE_SHUTDOWN) →
      ∃ x, DispatchSamples env s2 w2 = some x := by
    intro s2 w2 he hs
    apply DispatchSamples_total
    intro h2
    rw [he]
    exact hq (hs h2)
  have through : ∀ (c : Call), s.m_state ≠ .STATE_SHUTDOWN →
      ∃ x, (match sinkInvoke env s.event_queue c w with
        | none => none
        | some r => some (r.1, s, r.2)) = some x := by
    intro c hs
    obtain ⟨q, hq⟩ := hq hs
    simp only [hq, sinkInvoke]
    exact ⟨_, rfl⟩
  cases o with
  | requestSample t =>
    by_cases hp : s.m_state ≠ .STATE_SHUTDOWN ∧ s.m_state ≠ .STATE_STOPPED ∧
        s.activated = true ∧ (s.eos && s.m_Samples.isEmpty) = false ∧
        FAILED (env.alloc w.tick) = false
    · obtain ⟨h1, h2, h3, h4, h5⟩ := hp
      simp only [step]
      rw [RequestSample_accepted env s w t h1 h2 h3 h4 h5]
      exact disp _ _ rfl (fun _ => h1)
    · simp only [step, RequestSample]
      split
      · exact ⟨_, rfl⟩
      · rename_i c1
        split
        · exact ⟨_, rfl⟩
        · rename_i c2
          split
          · exact ⟨_, rfl⟩
          · rename_i c3
            split
            · exact ⟨_, rfl⟩
            · rename_i c4
              split
              · exact ⟨_, rfl⟩
              · rename_i c5
                exfalso
                apply hp
                refine ⟨?_, c2, by simpa [IsActive] using c3, by simpa using c4, ?_⟩
                · intro hs
                  rw [CheckShutdown_shut s hs, failed_MF_E_SHUTDOWN] at c1
                  exact c1 rfl
                · by_cases h5 : FAILED (env.alloc w.tick) = true
                  · simp [InsertBack, h5] at c5
                  · simpa using h5
  | deliverSample x =>
    by_cases h5 : FAILED (env.alloc w.tick) = true
    · have : ¬ (0 ≤ env.alloc w.tick) := by simpa [FAILED] using h5
      simp only [step, DeliverPayload, InsertBack, h5, if_true, SUCCEEDED, this, decide_False,
        Bool.false_eq_true, if_false]
      exact ⟨_, rfl⟩
    · simp only [step]
      rw [DeliverPayload_accepted env s w x (by simpa using h5)]
      exact disp _ _ rfl (fun h2 hs => by rw [hs] at h2; simp at h2)
  | start v =>
    by_cases h1 : s.m_state = .STATE_SHUTDOWN
    · simp only [step, Start, CheckShutdown_shut s h1, succeeded_MF_E_SHUTDOWN,
        Bool.false_eq_true, if_false]
      exact ⟨_, rfl⟩
    · obtain ⟨q, hq1⟩ := hq h1
      simp only [step, Start, CheckShutdown_ok s h1, succeeded_S_OK, if_true, QueueEvent, hq1,
        sinkInvoke]
      split
      · exact disp _ _ (by simp [hq1]) (fun _ => h1)
      · exact ⟨_, rfl⟩
  | pause =>
    by_cases h1 : s.m_state = .STATE_SHUTDOWN
    · simp only [step, Pause, CheckShutdown_shut s h1, succeeded_MF_E_SHUTDOWN,
        Bool.false_eq_true, if_false]
      exact ⟨_, rfl⟩
    · obtain ⟨q, hq1⟩ := hq h1
      have hc2 : CheckShutdown { s with m_state := .STATE_PAUSED } = S_OK :=
        CheckShutdown_ok _ (by simp)
      simp only [step, Pause, CheckShutdown_ok s h1, succeeded_S_OK, if_true, QueueEvent, hc2,
        hq1, sinkInvoke]
      exact ⟨_, rfl⟩
  | stop =>
    by_cases h1 : s.m_state = .STATE_SHUTDOWN
    · simp only [step, Stop, CheckShutdown_shut s h1, succeeded_MF_E_SHUTDOWN,
        Bool.false_eq_true, if_false]
      exact ⟨_, rfl⟩
    · obtain ⟨q, hq1⟩ := hq h1
      have hc2 : CheckShutdown
          { s with m_Requests := [], m_Samples := [], m_state := .STATE_STOPPED } = S_OK :=
        CheckShutdown_ok _ (by simp)
      simp only [step, Stop, CheckShutdown_ok s h1, succeeded_S_OK, if_true, QueueEvent, hc2,
        hq1, sinkInvoke]
      exact ⟨_, rfl⟩
  | shutdown => exact ⟨_, rfl⟩
  | activate act => exact ⟨_, rfl⟩
  | endOfStream =>
    simp only [step, EndOfStream]
    exact disp _ _ rfl (fun h2 hs => by simp only at h2; rw [hs] at h2; simp at h2)
  | needsData => exact ⟨_, rfl⟩
  | getStreamDescriptor p => exact ⟨_, rfl⟩
  | getMediaSource p =>
    simp only [step, GetMediaSource]
    split
    · exact ⟨_, rfl⟩
    · split <;> exact ⟨_, rfl⟩
  | queueEvent met st v =>
    by_cases h1 : s.m_state = .STATE_SHUTDOWN
    · simp only [step, QueueEvent, CheckShutdown_shut s h1, succeeded_MF_E_SHUTDOWN,
        Bool.false_eq_true, if_false]
      exact ⟨_, rfl⟩
    · simp only [step, QueueEvent, CheckShutdown_ok s h1, succeeded_S_OK, if_true]
      exact through _ h1
  | beginGetEvent =>
    by_cases h1 : s.m_state = .STATE_SHUTDOWN
    · simp only [step, BeginGetEvent, CheckShutdown_shut s h1, succeeded_MF_E_SHUTDOWN,
        Bool.false_eq_true, if_false]
      exact ⟨_, rfl⟩
    · simp only [step, BeginGetEvent, CheckShutdown_ok s h1, succeeded_S_OK, if_true]
      exact through _ h1
  | endGetEvent =>
    by_cases h1 : s.m_state = .STATE_SHUTDOWN
    · simp only [step, EndGetEvent, CheckShutdown_shut s h1, succeeded_MF_E_SHUTDOWN,
        Bool.false_eq_true, if_false]
      exact ⟨_, rfl⟩
    · simp only [step, EndGetEvent, CheckShutdown_ok s h1, succeeded_S_OK, if_true]
      exact through _ h1
  | getEvent f =>
    by_cases h1 : s.m_state = .STATE_SHUTDOWN
    · simp only [step, GetEvent, CheckShutdown_shut s h1, succeeded_MF_E_SHUTDOWN,
        Bool.false_eq_true, if_false]
      exact ⟨_, rfl⟩
    · simp only [step, GetEvent, CheckShutdown_ok s h1, succeeded_S_OK, if_true]
      exact through _ h1

/-- A property kept by every operation is kept by every run. -/
theorem run_invariant (env : Env) (P : FlvStream → Prop)
    (hstep : ∀ o s w hr s1 w1, step env o s w = some (hr, s1, w1) → P s → P s1) :
    ∀ (ops : List Op) (s : FlvStream) (w : World) (s1 : FlvStream) (w1 : World),
      run env ops s w = some (s1, w1) → P s → P s1 := by
  intro ops
  induction ops with
  | nil =>
    intro s w s1 w1 h hp
    simp only [run, Option.some.injEq, Prod.mk.injEq] at h
    rw [← h.1]; exact hp
  | cons o os ih =>
    intro s w s1 w1 h hp
    simp only [run] at h
    cases hs : step env o s w with
    | none => simp [hs] at h
    | some r =>
      obtain ⟨hr, s2, w2⟩ := r
      simp only [hs] at h
      exact ih s2 w2 s1 w1 h (hstep o s w hr s2 w2 hs hp)

/-- A property kept by every operation, under which no operation faults, makes
every run end. -/
theorem run_total (env : Env) (P : FlvStream → Prop)
    (hstep : ∀ o s w hr s1 w1, step env o s w = some (hr, s1, w1) → P s → P s1)
    (htot : ∀ o s w, P s → ∃ x, step env o s w = some x) :
    ∀ (ops : List Op) (s : FlvStream) (w : World), P s →
      ∃ s1 w1, run env ops s w = some (s1, w1) ∧ P s1 := by
  intro ops
  induction ops with
  | nil => intro s w hp; exact ⟨s, w, rfl, hp⟩
  | cons o os ih =>
    intro s w hp
    obtain ⟨⟨hr, s2, w2⟩, hs⟩ := htot o s w hp
    obtain ⟨s1, w1, hr1, hp1⟩ := ih s2 w2 (hstep o s w hr s2 w2 hs hp)
    exact ⟨s1, w1, by simp only [run, hs]; exact hr1, hp1⟩

/-- Every operation keeps the state and the event queue, except that `Start`,
`Pause` and `Stop` move between the states other than shut down, and that
`Shutdown` sets the state and nulls the event queue together. -/
theorem step_state_sink (env : Env) (o : Op) (s : FlvStream) (w : World)
    (hr : HRESULT) (s1 : FlvStream) (w1 : World)
    (h : step env o s w = some (hr, s1, w1)) :
    (s1.event_queue = s.event_queue ∧
      (s1.m_state = .STATE_SHUTDOWN ↔ s.m_state = .STATE_SHUTDOWN)) ∨
    (s.m_state ≠ .STATE_SHUTDOWN ∧ s1.m_state = .STATE_SHUTDOWN ∧
      s1.event_queue = none) := by
  have viaDispatch : ∀ (s2 : FlvStream) (w2 : World),
      DispatchSamples env s2 w2 = some (hr, s1, w1) → s2.event_queue = s.event_queue →
      (s2.m_state = .STATE_SHUTDOWN ↔ s.m_state = .STATE_SHUTDOWN) →
      (s1.event_queue = s.event_queue ∧
        (s1.m_state = .STATE_SHUTDOWN ↔ s.m_state = .STATE_SHUTDOWN)) := by
    intro s2 w2 hd he hs
    obtain ⟨f1, _, _, f4, _, _⟩ := DispatchSamples_frame env s2 w2 hr s1 w1 hd
    exact ⟨by rw [f4, he], by rw [f1]; exact hs⟩
  rcases step_cases env o s w hr s1 w1 h with
    c | ⟨t, _, _, _, _, c⟩ | ⟨x, _, c⟩ | ⟨v, _, h1, c⟩ | ⟨_, c⟩ | ⟨_, h1, c, _⟩ |
    ⟨_, h1, c, _⟩ | ⟨_, h1, c, _⟩ | ⟨act, _, _, _, c⟩
  · rw [c.1]; exact Or.inl ⟨rfl, Iff.rfl⟩
  · exact Or.inl (viaDispatch _ _ c rfl Iff.rfl)
  · exact Or.inl (viaDispatch _ _ c rfl Iff.rfl)
  · exact Or.inl (viaDispatch _ _ c rfl ⟨fun hh => by simp at hh, fun hh => absurd hh h1⟩)
  · exact Or.inl (viaDispatch _ _ c rfl Iff.rfl)
  · rw [c]; exact Or.inl ⟨rfl, ⟨fun hh => by simp at hh, fun hh => absurd hh h1⟩⟩
  · rw [c]; exact Or.inl ⟨rfl, ⟨fun hh => by simp at hh, fun hh => absurd hh h1⟩⟩
  · rw [c]; exact Or.inr ⟨h1, rfl, rfl⟩
  · rw [c]; cases act <;> exact Or.inl ⟨rfl, Iff.rfl⟩

/-- Every public operation keeps `SinkInv`. -/
theorem step_SinkInv (env : Env) (o : Op) (s : FlvStream) (w : World)
    (hr : HRESULT) (s1 : FlvStream) (w1 : World)
    (h : step env o s w = some (hr, s1, w1)) (hi : SinkInv s) : SinkInv s1 := by
  rcases step_state_sink env o s w hr s1 w1 h with ⟨e, hs⟩ | ⟨_, e1, e2⟩
  · unfold SinkInv at hi ⊢
    rw [e, hs]; exact hi
  · unfold SinkInv
    exact ⟨fun _ => e1, fun _ => e2⟩

/-- No public operation leaves the shut-down state. -/
theorem step_keeps_shutdown (env : Env) (o : Op) (s : FlvStream) (w : World)
    (hr : HRESULT) (s1 : FlvStream) (w1 : World)
    (h : step env o s w = some (hr, s1, w1)) (hi : s.m_state = .STATE_SHUTDOWN) :
    s1.m_state = .STATE_SHUTDOWN := by
  rcases step_state_sink env o s w hr s1 w1 h with ⟨_, hs⟩ | ⟨h1, _, _⟩
  · exact hs.2 hi
  · exact absurd hi h1

/-- Every public operation keeps `LiveInv`, under any behaviour of the
collaborators. -/
theorem step_LiveInv (env : Env) (o : Op) (s : FlvStream) (w : World)
    (hr : HRESULT) (s1 : FlvStream) (w1 : World)
    (h : step env o s w = some (hr, s1, w1)) (hi : LiveInv s) : LiveInv s1 := by
  have viaDispatch : ∀ (s2 : FlvStream) (w2 : World),
      DispatchSamples env s2 w2 = some (hr, s1, w1) → LiveInv s2 → LiveInv s1 := by
    intro s2 w2 hd h2 hne
    obtain ⟨f1, f2, _, _, _, _⟩ := DispatchSamples_frame env s2 w2 hr s1 w1 hd
    obtain ⟨k, _, _, er, _, _, _⟩ := DispatchSamples_resolution env s2 w2 hr s1 w1 hd
    have : s2.m_Requests ≠ [] := by
      intro he
      rw [er, he] at hne
      simp at hne
    rw [f1, f2]
    exact h2 this
  rcases step_cases env o s w hr s1 w1 h with
    c | ⟨t, _, h1, h2, h3, c⟩ | ⟨x, _, c⟩ | ⟨v, _, h1, c⟩ | ⟨_, c⟩ | ⟨_, h1, c, _⟩ |
    ⟨_, h1, c, _⟩ | ⟨_, h1, c, _⟩ | ⟨act, _, ha, _, c⟩
  · rw [c.1]; exact hi
  · refine viaDispatch _ _ c (fun _ => ⟨h3, ?_⟩)
    show s.m_state = .STATE_STARTED ∨ s.m_state = .STATE_PAUSED
    cases hs : s.m_state with
    | STATE_STOPPED => exact absurd hs h2
    | STATE_PAUSED => exact Or.inr rfl
    | STATE_STARTED => exact Or.inl rfl
    | STATE_SHUTDOWN => exact absurd hs h1
  · exact viaDispatch _ _ c hi
  · exact viaDispatch _ _ c (fun hne => ⟨(hi hne).1, Or.inl rfl⟩)
  · exact viaDispatch _ _ c hi
  · rw [c]; exact fun hne => ⟨(hi hne).1, Or.inr rfl⟩
  · rw [c]; intro hne; simp at hne
  · rw [c]; intro hne; simp at hne
  · rw [c]
    cases act
    · intro hne; simp at hne
    · intro hne
      have hf : s.activated = false := by
        cases hb : s.activated with
        | false => rfl
        | true => exact absurd hb.symm ha
      have := (hi hne).1
      rw [hf] at this
      simp at this

/-- `Stop` on a stream that is not shut down and has its event queue: both
queues are emptied, the state is stopped, the flags are kept, and the only
collaborator call is the `MEStreamStopped` event, whose code is returned. -/
theorem Stop_contract (env : Env) (s : FlvStream) (w : World) (q : Nat)
    (hst : s.m_state ≠ .STATE_SHUTDOWN) (hq : s.event_queue = some q) :
    Stop env s w
      = some (env.reply w.tick (.QueueEventParamVar .MEStreamStopped S_OK none),
          { s with m_Requests := [], m_Samples := [], m_state := .STATE_STOPPED },
          { tick := w.tick + 1,
            log := w.log ++ [.QueueEventParamVar .MEStreamStopped S_OK none] }) := by
  obtain ⟨st, act, eos, rq, sq, eq, sd⟩ := s
  simp only at hst hq
  subst hq
  have hc1 := CheckShutdown_ok ⟨st, act, eos, rq, sq, some q, sd⟩ hst
  have hc2 : CheckShutdown ⟨.STATE_STOPPED, act, eos, [], [], some q, sd⟩ = S_OK :=
    CheckShutdown_ok _ (by simp)
  simp only [Stop, hc1, succeeded_S_OK, if_true, QueueEvent, hc2, sinkInvoke, invoke]

/-- Every public operation keeps the descriptor of a stream that is not shut
down. -/
theorem step_descriptor (env : Env) (o : Op) (s : FlvStream) (w : World)
    (hr : HRESULT) (s1 : FlvStream) (w1 : World) (d : Option Nat)
    (h : step env o s w = some (hr, s1, w1))
    (hi : s.m_state ≠ .STATE_SHUTDOWN → s.stream_descriptor = d) :
    s1.m_state ≠ .STATE_SHUTDOWN → s1.stream_descriptor = d := by
  have viaDispatch : ∀ (s2 : FlvStream) (w2 : World),
      DispatchSamples env s2 w2 = some (hr, s1, w1) →
      s2.stream_descriptor = s.stream_descriptor →
      (s2.m_state ≠ .STATE_SHUTDOWN → s.m_state ≠ .STATE_SHUTDOWN) →
      s1.m_state ≠ .STATE_SHUTDOWN → s1.stream_descriptor = d := by
    intro s2 w2 hd he hs hne
    obtain ⟨f1, _, _, _, f5, _⟩ := DispatchSamples_frame env s2 w2 hr s1 w1 hd
    rw [f5, he]
    exact hi (hs (f1 ▸ hne))
  rcases step_cases env o s w hr s1 w1 h with
    c | ⟨t, _, _, _, _, c⟩ | ⟨x, _, c⟩ | ⟨v, _, h1, c⟩ | ⟨_, c⟩ | ⟨_, h1, c, _⟩ |
    ⟨_, h1, c, _⟩ | ⟨_, h1, c, _⟩ | ⟨act, _, _, _, c⟩
  · rw [c.1]; exact hi
  · exact viaDispatch _ _ c rfl id
  · exact viaDispatch _ _ c rfl id
  · exact viaDispatch _ _ c rfl (fun _ => h1)
  · exact viaDispatch _ _ c rfl id
  · rw [c]; exact fun _ => hi h1
  · rw [c]; exact fun _ => hi h1
  · rw [c]; intro hne; simp at hne
  · rw [c]; cases act <;> exact hi

/-- On a stream that is not shut down and holds a descriptor,
`GetStreamDescriptor` with a valid output pointer returns it with `S_OK`. -/
theorem GetStreamDescriptor_live (s : FlvStream) (d : Nat)
    (hst : s.m_state ≠ .STATE_SHUTDOWN) (hd : s.stream_descriptor = some d) :
    GetStreamDescriptor s true = (S_OK, some d) := by
  simp [GetStreamDescriptor, hd, CheckShutdown_ok s hst, succeeded_S_OK]

/-- C1 (ordering), counterexample: the event queue and the token attachment
never fail, but the insertion of the delivered sample fails; one
`deliverSample` and one `requestSample` are made on a started, active channel
with empty queues, min(N, M) is 1, and no `MEMediaSample` event is queued: the
request stays pending. -/
theorem C1_failed_insertion_no_sample_ready :
    (allocFailAt 0).deliveryOk ∧
    step (allocFailAt 0) (.deliverSample 1) startedStream World.start
      = some (E_FAIL, startedStream, { tick := 1, log := [] }) ∧
    run (allocFailAt 0) [.deliverSample 1, .requestSample (some 11)] startedStream World.start
      = some ({ startedStream with m_Requests := [some 11] },
          { tick := 3, log := [.AsyncRequestData] }) ∧
    sampleReady [.AsyncRequestData] = [] ∧
    min (requestedTokens [.deliverSample 1, .requestSample (some 11)]).length
      (deliveredSamples [.deliverSample 1, .requestSample (some 11)]).length = 1 := by
  refine ⟨fun _ _ _ => rfl, ?_, ?_, ?_, ?_⟩ <;> decide

/-- C1 (ordering, P1/I2), as amended: on a channel that is started, active, not at end of
stream, with both queues empty and an event queue, when no list insertion, no
token attachment and no call through the event queue fails, every interleaving
of `requestSample` and `deliverSample` calls runs to its end, and the calls it
adds to the log queue exactly min(N, M) `MEMediaSample` events, the k-th one
carrying the k-th delivered sample; the k-th requested token is set on that
sample just before when it is not NULL, and nothing is set when it is NULL. -/
theorem C1_dispatch_order (env : Env) (s : FlvStream) (w : World) (q : Nat) (ops : List Op)
    (hst : s.m_state = .STATE_STARTED) (hact : s.activated = true) (heos : s.eos = false)
    (hq : s.event_queue = some q) (hrq : s.m_Requests = []) (hsq : s.m_Samples = [])
    (ha : env.allocOk) (hd : env.deliveryOk)
    (hops : ∀ o ∈ ops, Op.isTraffic o = true) :
    ∃ s1 w1 new, run env ops s w = some (s1, w1) ∧ w1.log = w.log ++ new ∧
      (sampleReady new).length
        = min (requestedTokens ops).length (deliveredSamples ops).length ∧
      sampleReady new = (deliveredSamples ops).take
        (min (requestedTokens ops).length (deliveredSamples ops).length) ∧
      deliveryCalls new
        = handoverCalls ((deliveredSamples ops).zip (requestedTokens ops)) := by
  obtain ⟨s1, w1, D, new, er, _, _, _, _, i5, i6, i7, i8, i9, i10⟩ :=
    traffic_invariant env ha hd.handoverOk s w q hst hact heos hq hrq hsq ops hops
  have hz := zip_of_split D s1.m_Samples s1.m_Requests i5
  have htk := take_of_split D s1.m_Samples s1.m_Requests i5
  rw [← i7, ← i8] at hz htk
  refine ⟨s1, w1, new, er, i6, ?_, ?_, ?_⟩
  · rw [i9, ← htk, List.length_take]
    exact min_eq_left (min_le_right _ _)
  · rw [i9, htk]
  · rw [i10, hz]

theorem C1_dispatch_order_witness :
    ∃ s1 w1 new,
      run okEnv [.deliverSample 1, .requestSample (some 11), .requestSample none,
        .deliverSample 2, .deliverSample 3] startedStream World.start = some (s1, w1) ∧
      w1.log = World.start.log ++ new ∧
      (sampleReady new).length = 2 ∧ sampleReady new = [1, 2] ∧
      deliveryCalls new = [.SetUnknown 1 11, .QueueEventParamUnk .MEMediaSample 1,
        .QueueEventParamUnk .MEMediaSample 2] :=
  C1_dispatch_order okEnv startedStream World.start 0
    [.deliverSample 1, .requestSample (some 11), .requestSample none,
      .deliverSample 2, .deliverSample 3]
    rfl rfl rfl rfl rfl rfl (fun _ => rfl) (fun _ _ _ => rfl) (by decide)

/-- C2 (requestSample result codes), evaluated at the failing input: on a
stopped channel whose source queues the error event successfully,
`RequestSample` sends `MEError` with `MF_E_INVALIDREQUEST` to the source and
then returns the code of that call, `S_OK`, not `MF_E_INVALIDREQUEST`. -/
theorem C2_requestSample_returns_sink_code :
    RequestSample okEnv stoppedStream World.start (some 11)
      = some (S_OK, stoppedStream,
          { tick := 1, log := [.SourceQueueEvent .MEError MF_E_INVALIDREQUEST] }) ∧
    S_OK ≠ MF_E_INVALIDREQUEST := by
  decide

/-- C3 (shutdown finality), counterexample: on a channel that was shut down
successfully, `DeliverPayload` returns `S_OK` and stores the sample, and
`Activate` returns `S_OK`; neither returns `MF_E_SHUTDOWN`. -/
theorem C3_late_calls_succeed :
    (Shutdown okEnv startedStream World.start).1 = S_OK ∧
    shutStream.m_state = .STATE_SHUTDOWN ∧
    DeliverPayload okEnv shutStream World.start 5
      = some (S_OK, { shutStream with m_Samples := [5] }, { tick := 1, log := [] }) ∧
    Activate shutStream World.start false
      = (S_OK, { shutStream with activated := false }, World.start) ∧
    S_OK ≠ MF_E_SHUTDOWN := by
  decide

/-- C3 (shutdown finality), as amended: on a channel in state shut down,
`RequestSample`, `Start`, `Pause` and `Stop` return `MF_E_SHUTDOWN` and change
neither the stream nor the world.  `DeliverPayload` and `Activate` make no
collaborator call and leave the state shut down, but `DeliverPayload` returns
the result of the list insertion (`S_OK`, with the sample appended, when it
succeeds) and `Activate` returns `S_OK`. -/
theorem C3_shutdown_finality (env : Env) (s : FlvStream) (w : World)
    (hst : s.m_state = .STATE_SHUTDOWN) :
    (∀ pToken, RequestSample env s w pToken = some (MF_E_SHUTDOWN, s, w)) ∧
    (∀ varStart, Start env s w varStart = some (MF_E_SHUTDOWN, s, w)) ∧
    Pause env s w = some (MF_E_SHUTDOWN, s, w) ∧
    Stop env s w = some (MF_E_SHUTDOWN, s, w) ∧
    (∀ pSample, DeliverPayload env s w pSample
      = some (if FAILED (env.alloc w.tick) then
                (env.alloc w.tick, s, { w with tick := w.tick + 1 })
              else (S_OK, { s with m_Samples := s.m_Samples ++ [pSample] },
                { w with tick := w.tick + 1 }))) ∧
    (∀ act, ∃ s1, Activate s w act = (S_OK, s1, w) ∧ s1.m_state = .STATE_SHUTDOWN) := by
  obtain ⟨st, act, eos, rq, sq, eq, sd⟩ := s
  simp only at hst
  subst hst
  refine ⟨?_, ?_, ?_, ?_, ?_, ?_⟩
  · intro t
    simp [RequestSample, CheckShutdown, requestDone, FAILED, MF_E_SHUTDOWN]
  · intro v
    simp [Start, CheckShutdown, SUCCEEDED, MF_E_SHUTDOWN]
  · simp [Pause, CheckShutdown, SUCCEEDED, MF_E_SHUTDOWN]
  · simp [Stop, CheckShutdown, SUCCEEDED, MF_E_SHUTDOWN]
  · intro x
    by_cases hf : FAILED (env.alloc w.tick) = true
    · have : ¬ (0 ≤ env.alloc w.tick) := by
        simpa [FAILED] using hf
      simp [DeliverPayload, InsertBack, hf, SUCCEEDED, this]
    · simp [DeliverPayload, InsertBack, hf, SUCCEEDED, S_OK, DispatchSamples]
  · intro b
    unfold Activate
    split
    · exact ⟨_, rfl, rfl⟩
    · split <;> exact ⟨_, rfl, rfl⟩

theorem C3_shutdown_finality_witness :
    (∀ pToken, RequestSample okEnv shutStream World.start pToken
      = some (MF_E_SHUTDOWN, shutStream, World.start)) ∧
    (∀ varStart, Start okEnv shutStream World.start varStart
      = some (MF_E_SHUTDOWN, shutStream, World.start)) ∧
    Pause okEnv shutStream World.start = some (MF_E_SHUTDOWN, shutStream, World.start) ∧
    Stop okEnv shutStream World.start = some (MF_E_SHUTDOWN, shutStream, World.start) ∧
    (∀ pSample, DeliverPayload okEnv shutStream World.start pSample
      = some (S_OK, { shutStream with m_Samples := [pSample] }, { tick := 1, log := [] })) ∧
    (∀ act, ∃ s1, Activate shutStream World.start act = (S_OK, s1, World.start)
      ∧ s1.m_state = .STATE_SHUTDOWN) :=
  C3_shutdown_finality okEnv shutStream World.start rfl

/-- C4 (backpressure predicate, P2): `NeedsData` is true exactly when the
stream is active, not at end of stream, and holds fewer than 2 samples; on an
active stream not at end of stream it is true with 0 and 1 queued samples and
false with 2 and 3; it does not depend on the state or on the request queue,
and calling it changes neither the stream nor the world. -/
theorem C4_needsData (env : Env) (s : FlvStream) (w : World) :
    (NeedsData s = true ↔
      s.activated = true ∧ s.eos = false ∧ s.m_Samples.length < 2) ∧
    (∀ st rq q d a b c,
      NeedsData ⟨st, true, false, rq, [], q, d⟩ = true ∧
      NeedsData ⟨st, true, false, rq, [a], q, d⟩ = true ∧
      NeedsData ⟨st, true, false, rq, [a, b], q, d⟩ = false ∧
      NeedsData ⟨st, true, false, rq, [a, b, c], q, d⟩ = false) ∧
    (∀ st rq, NeedsData { s with m_state := st, m_Requests := rq } = NeedsData s) ∧
    (∃ r, step env .needsData s w = some (r, s, w)) := by
  refine ⟨?_, ?_, ?_, ?_⟩
  · simp [NeedsData, SAMPLE_QUEUE, and_assoc]
  · intro st rq q d a b c
    simp [NeedsData, SAMPLE_QUEUE]
  · intro st rq
    rfl
  · exact ⟨_, rfl⟩

/-- C5 (end-of-stream idempotence), counterexample: two `EndOfStream` calls in
a row on a started channel with empty queues queue two `MEEndOfStream` events
and call `AsyncEndOfStream` twice. -/
theorem C5_endOfStream_twice_emits_twice :
    (run okEnv [.endOfStream, .endOfStream] startedStream World.start).map
      (fun p => (endOfStreamCount p.2.log, aggregateCount p.2.log)) = some (2, 2) := by
  decide

/-- C5 (end-of-stream idempotence), as amended: on a started channel, every
`EndOfStream` call that finds the sample queue empty queues one
`MEEndOfStream` event and calls `AsyncEndOfStream` once, so two calls in a row
produce two of each; an `EndOfStream` call that finds samples buffered and no
request pending only sets the latch and calls no collaborator. -/
theorem C5_endOfStream_repeats (env : Env) (s : FlvStream) (w : World) (q : Nat)
    (hst : s.m_state = .STATE_STARTED) (hq : s.event_queue = some q) :
    (s.m_Samples = [] →
      ∃ w1 w2, EndOfStream env s w = some (S_OK, { s with eos := true }, w1) ∧
        endOfStreamCount w1.log = endOfStreamCount w.log + 1 ∧
        aggregateCount w1.log = aggregateCount w.log + 1 ∧
        EndOfStream env { s with eos := true } w1 = some (S_OK, { s with eos := true }, w2) ∧
        endOfStreamCount w2.log = endOfStreamCount w.log + 2 ∧
        aggregateCount w2.log = aggregateCount w.log + 2) ∧
    (s.m_Samples ≠ [] → s.m_Requests = [] →
      EndOfStream env s w = some (S_OK, { s with eos := true }, w)) := by
  constructor
  · intro hsq
    obtain ⟨w1, e1, c1, a1⟩ := EndOfStream_drained env s w q hst hq hsq
    obtain ⟨w2, e2, c2, a2⟩ :=
      EndOfStream_drained env { s with eos := true } w1 q hst hq hsq
    exact ⟨w1, w2, e1, c1, a1, e2, by rw [c2, c1], by rw [a2, a1]⟩
  · intro hsq hrq
    obtain ⟨st, act, eos, rq, sq, eq, sd⟩ := s
    simp only at hst hq hsq hrq
    subst hst hq hrq
    cases sq with
    | nil => exact absurd rfl hsq
    | cons a sq =>
      simp [EndOfStream, DispatchSamples, dispatchLoop, dispatchTerminal, NeedsData,
        dispatchDone, FAILED, S_OK]

theorem C5_endOfStream_repeats_witness :
    (∃ w1 w2, EndOfStream okEnv startedStream World.start
          = some (S_OK, { startedStream with eos := true }, w1) ∧
        endOfStreamCount w1.log = endOfStreamCount World.start.log + 1 ∧
        aggregateCount w1.log = aggregateCount World.start.log + 1 ∧
        EndOfStream okEnv { startedStream with eos := true } w1
          = some (S_OK, { startedStream with eos := true }, w2) ∧
        endOfStreamCount w2.log = endOfStreamCount World.start.log + 2 ∧
        aggregateCount w2.log = aggregateCount World.start.log + 2) ∧
    EndOfStream okEnv drainingStream World.start
      = some (S_OK, { drainingStream with eos := true }, World.start) :=
  ⟨(C5_endOfStream_repeats okEnv startedStream World.start 0 rfl rfl).1 rfl,
   (C5_endOfStream_repeats okEnv drainingStream World.start 0 rfl rfl).2 (by decide) rfl⟩

/-- C6 (pause suspension), counterexample: a paused channel holds one sample
and two requests and is delivered a second sample; `Start` then returns
`S_OK` and sets the state to started, but the first `MEMediaSample` event
fails to queue, the pass stops there, and the second backlog sample is never
handed over although two samples and two requests were queued. -/
theorem C6_start_succeeds_dispatch_aborted :
    DeliverPayload (failAt 3) pausedStream World.start 2
      = some (S_OK, { pausedStream with m_Samples := [1, 2] }, { tick := 1, log := [] }) ∧
    Start (failAt 3) { pausedStream with m_Samples := [1, 2] } { tick := 1, log := [] } none
      = some (S_OK,
          { pausedStream with m_state := .STATE_STARTED, m_Samples := [2],
                              m_Requests := [none] },
          { tick := 5,
            log := [.QueueEventParamVar .MEStreamStarted S_OK none, .SetUnknown 1 11,
              .QueueEventParamUnk .MEMediaSample 1, .SourceQueueEvent .MEError E_FAIL] }) ∧
    (failAt 3).reply 3 (.QueueEventParamUnk .MEMediaSample 1) = E_FAIL := by
  decide

/-- C6 (pause suspension, P6), as amended: on a paused channel a
`DeliverPayload` whose list insertion succeeds appends the sample, returns
`S_OK`, makes no collaborator call and leaves the request queue unchanged; and
a following `Start` that returns success, when no token attachment and no
queueing of a sample event fails, leaves the state started and adds to the log
first the `MEStreamStarted` event, then the hand-over calls of the first
min(#samples, #requests) backlog samples in queue order, each with the request
of the same rank, and after them no further hand-over call. -/
theorem C6_pause_suspension (env : Env) (s : FlvStream) (w : World) (x : Nat)
    (v : Option Nat) (q : Nat) (hr : HRESULT) (s1 : FlvStream) (w1 : World)
    (hst : s.m_state = .STATE_PAUSED) (hq : s.event_queue = some q)
    (ha : FAILED (env.alloc w.tick) = false) (hd : env.handoverOk)
    (hs : Start env { s with m_Samples := s.m_Samples ++ [x] }
      { w with tick := w.tick + 1 } v = some (hr, s1, w1))
    (hok : SUCCEEDED hr = true) :
    DeliverPayload env s w x
      = some (S_OK, { s with m_Samples := s.m_Samples ++ [x] },
          { w with tick := w.tick + 1 }) ∧
    s1.m_state = .STATE_STARTED ∧
    s1 = afterDispatch { s with m_state := .STATE_STARTED, m_Samples := s.m_Samples ++ [x] } ∧
    sampleReady (handoverCalls ((s.m_Samples ++ [x]).zip s.m_Requests))
      = (s.m_Samples ++ [x]).take (min (s.m_Samples ++ [x]).length s.m_Requests.length) ∧
    ∃ rest, w1.log = w.log ++ [.QueueEventParamVar .MEStreamStarted S_OK v]
        ++ handoverCalls ((s.m_Samples ++ [x]).zip s.m_Requests) ++ rest ∧
      sampleReady rest = [] ∧ deliveryCalls rest = [] := by
  have hne : s.m_state ≠ .STATE_STARTED := by rw [hst]; simp
  have hns : s.m_state ≠ .STATE_SHUTDOWN := by rw [hst]; simp
  obtain ⟨e1, rest, l, r1, r2⟩ := Start_backlog env hd
    { s with m_Samples := s.m_Samples ++ [x] } { w with tick := w.tick + 1 } v q hns hq
    hr s1 w1 hs hok
  refine ⟨DeliverPayload_not_started env s w x hne ha, ?_, e1, ?_, rest, l, r1, r2⟩
  · rw [e1]; rfl
  · rw [sampleReady_handover, zip_fst_take]

theorem C6_pause_suspension_witness :
    DeliverPayload okEnv pausedStream World.start 2
      = some (S_OK, { pausedStream with m_Samples := [1, 2] }, { tick := 1, log := [] }) ∧
    StreamState.STATE_STARTED = .STATE_STARTED ∧
    ({ pausedStream with m_state := .STATE_STARTED, m_Samples := [], m_Requests := [] }
        : FlvStream)
      = afterDispatch { pausedStream with m_state := .STATE_STARTED, m_Samples := [1, 2] } ∧
    sampleReady (handoverCalls ([1, 2].zip [some 11, none])) = [1, 2] ∧
    ∃ rest, [.QueueEventParamVar .MEStreamStarted S_OK (some 4), .SetUnknown 1 11,
          .QueueEventParamUnk .MEMediaSample 1, .QueueEventParamUnk .MEMediaSample 2,
          .AsyncRequestData]
        = ([] : List Call) ++ [.QueueEventParamVar .MEStreamStarted S_OK (some 4)]
          ++ handoverCalls ([1, 2].zip [some 11, none]) ++ rest ∧
      sampleReady rest = [] ∧ deliveryCalls rest = [] :=
  C6_pause_suspension okEnv pausedStream World.start 2 (some 4) 0 S_OK
    { pausedStream with m_state := .STATE_STARTED, m_Samples := [], m_Requests := [] }
    { tick := 6,
      log := [.QueueEventParamVar .MEStreamStarted S_OK (some 4), .SetUnknown 1 11,
        .QueueEventParamUnk .MEMediaSample 1, .QueueEventParamUnk .MEMediaSample 2,
        .AsyncRequestData] }
    rfl rfl rfl (fun n c _ => rfl) (by decide) (by decide)

/-- C7 (deactivation drop, P5): on an active channel `Activate(false)` empties
both queues, makes no collaborator call and changes neither the state nor the
end-of-stream latch; `Activate(true)` after it leaves both queues empty and
makes no collaborator call; and `Activate` with the current value of the flag
changes nothing at all. -/
theorem C7_activate_drop (s : FlvStream) (w : World) (hact : s.activated = true) :
    Activate s w false
      = (S_OK, { s with activated := false, m_Samples := [], m_Requests := [] }, w) ∧
    Activate { s with activated := false, m_Samples := [], m_Requests := [] } w true
      = (S_OK, { s with activated := true, m_Samples := [], m_Requests := [] }, w) ∧
    (∀ (s0 : FlvStream) (w0 : World), Activate s0 w0 s0.activated = (S_OK, s0, w0)) := by
  refine ⟨?_, ?_, ?_⟩
  · simp [Activate, hact]
  · simp [Activate]
  · intro s0 w0
    simp [Activate]

theorem C7_activate_drop_witness :
    Activate loadedStream World.start false
      = (S_OK, { loadedStream with activated := false, m_Samples := [], m_Requests := [] },
          World.start) ∧
    Activate { loadedStream with activated := false, m_Samples := [], m_Requests := [] }
        World.start true
      = (S_OK, { loadedStream with activated := true, m_Samples := [], m_Requests := [] },
          World.start) ∧
    (∀ (s0 : FlvStream) (w0 : World), Activate s0 w0 s0.activated = (S_OK, s0, w0)) :=
  C7_activate_drop loadedStream World.start rfl

/-- C8 (invariant I1), counterexample: a sample delivered after `Shutdown`
stays in the sample queue of the shut-down stream. -/
theorem C8_sample_queued_after_shutdown :
    (run okEnv [.shutdown, .deliverSample 5] freshStream freshWorld).map
      (fun p => (p.1.m_state, p.1.m_Samples)) = some (.STATE_SHUTDOWN, [5]) := by
  decide

/-- C8 (invariant I1), as amended: in every state reached from a freshly
constructed channel by public operations, under every behaviour of the
collaborators, a shut-down stream has an empty request queue and a null event
queue; and `Shutdown` on a stream that is not shut down leaves both queues
empty (the sample queue can be refilled by a later `DeliverPayload`). -/
theorem C8_shutdown_invariant (env : Env) (pSD : Nat) (w0 : World) (ops : List Op)
    (s : FlvStream) (w : World)
    (hrun : run env ops (construct env pSD w0).2.1 (construct env pSD w0).2.2 = some (s, w))
    (hs : s.m_state = .STATE_SHUTDOWN) :
    (s.m_Requests = [] ∧ s.event_queue = none) ∧
    (∀ (s0 : FlvStream) (w1 : World), s0.m_state ≠ .STATE_SHUTDOWN →
      (Shutdown env s0 w1).2.1.m_state = .STATE_SHUTDOWN ∧
      (Shutdown env s0 w1).2.1.m_Requests = [] ∧
      (Shutdown env s0 w1).2.1.m_Samples = [] ∧
      (Shutdown env s0 w1).2.1.event_queue = none) := by
  constructor
  · have h0 : ShutInv (construct env pSD w0).2.1 := by
      intro h
      simp [construct] at h
    exact run_ShutInv env ops _ _ s w hrun h0 hs
  · intro s0 w1 h0
    rw [(Shutdown_frame env s0 w1).2 h0 |>.2]
    exact ⟨rfl, rfl, rfl, rfl⟩

theorem C8_shutdown_invariant_witness :
    (([] : List (Option Nat)) = [] ∧ (none : Option Nat) = none) ∧
    (∀ (s0 : FlvStream) (w1 : World), s0.m_state ≠ .STATE_SHUTDOWN →
      (Shutdown okEnv s0 w1).2.1.m_state = .STATE_SHUTDOWN ∧
      (Shutdown okEnv s0 w1).2.1.m_Requests = [] ∧
      (Shutdown okEnv s0 w1).2.1.m_Samples = [] ∧
      (Shutdown okEnv s0 w1).2.1.event_queue = none) :=
  C8_shutdown_invariant okEnv 9 World.start
    [.activate true, .start none, .requestSample (some 11), .shutdown, .deliverSample 5]
    { m_state := .STATE_SHUTDOWN, activated := true, eos := false, m_Requests := [],
      m_Samples := [5], event_queue := none, stream_descriptor := none }
    { tick := 7,
      log := [.MFCreateEventQueue, .QueueEventParamVar .MEStreamStarted S_OK none,
        .AsyncRequestData, .AsyncRequestData, .EventQueueShutdown] }
    (by decide) rfl

/-- C9 (dispatch failure isolation), evaluated at the failing input: a started,
active channel at end of stream holds one sample; `RequestSample` hands it
over, the `MEEndOfStream` event then fails to queue with `E_FAIL`, and the
pass overwrites that code with the result of `AsyncEndOfStream`: no error
event reaches the source. -/
theorem C9_end_of_stream_failure_dropped :
    RequestSample (failAt 3) drainingStream World.start (some 11)
      = some (S_OK, { drainingStream with m_Samples := [] },
          { tick := 5,
            log := [.SetUnknown 1 11, .QueueEventParamUnk .MEMediaSample 1,
              .QueueEventParamVar .MEEndOfStream S_OK none, .AsyncEndOfStream] }) ∧
    (failAt 3).reply 3 (.QueueEventParamVar .MEEndOfStream S_OK none) = E_FAIL ∧
    FAILED E_FAIL = true ∧
    sourceErrors [.SetUnknown 1 11, .QueueEventParamUnk .MEMediaSample 1,
      .QueueEventParamVar .MEEndOfStream S_OK none, .AsyncEndOfStream] = [] := by
  decide

/-- C10 (requestSample failure is atomic and reported): on a shut-down stream
`RequestSample` changes nothing and calls no collaborator; on a stream that is
not shut down, when a precondition fails (stopped; else inactive; else end of
stream latched with an empty sample queue) the stream is unchanged and the
only collaborator call is one `MEError` event on the source carrying the code
of that precondition. -/
theorem C10_requestSample_failure (env : Env) (s : FlvStream) (w : World)
    (pToken : Option Nat) :
    (s.m_state = .STATE_SHUTDOWN →
      RequestSample env s w pToken = some (MF_E_SHUTDOWN, s, w)) ∧
    (s.m_state = .STATE_STOPPED →
      ∃ hr, RequestSample env s w pToken = some (hr, s,
        { tick := w.tick + 1,
          log := w.log ++ [.SourceQueueEvent .MEError MF_E_INVALIDREQUEST] })) ∧
    (s.m_state ≠ .STATE_SHUTDOWN → s.m_state ≠ .STATE_STOPPED → s.activated = false →
      ∃ hr, RequestSample env s w pToken = some (hr, s,
        { tick := w.tick + 1,
          log := w.log ++ [.SourceQueueEvent .MEError MF_E_INVALIDREQUEST] })) ∧
    (s.m_state ≠ .STATE_SHUTDOWN → s.m_state ≠ .STATE_STOPPED → s.activated = true →
      s.eos = true → s.m_Samples = [] →
      ∃ hr, RequestSample env s w pToken = some (hr, s,
        { tick := w.tick + 1,
          log := w.log ++ [.SourceQueueEvent .MEError MF_E_END_OF_STREAM] })) := by
  refine ⟨?_, ?_, ?_, ?_⟩
  · intro h
    simp [RequestSample, CheckShutdown_shut s h, failed_MF_E_SHUTDOWN, requestDone, h]
  · intro h
    have hne : s.m_state ≠ .STATE_SHUTDOWN := by rw [h]; simp
    refine ⟨env.reply w.tick (.SourceQueueEvent .MEError MF_E_INVALIDREQUEST), ?_⟩
    simp [RequestSample, CheckShutdown_ok s hne, failed_S_OK, requestDone, h, invoke,
      failed_MF_E_INVALIDREQUEST]
  · intro hne h1 h2
    refine ⟨env.reply w.tick (.SourceQueueEvent .MEError MF_E_INVALIDREQUEST), ?_⟩
    simp [RequestSample, CheckShutdown_ok s hne, failed_S_OK, requestDone, h1, hne, IsActive,
      h2, invoke, failed_MF_E_INVALIDREQUEST]
  · intro hne h1 h2 h3 h4
    refine ⟨env.reply w.tick (.SourceQueueEvent .MEError MF_E_END_OF_STREAM), ?_⟩
    simp [RequestSample, CheckShutdown_ok s hne, failed_S_OK, requestDone, h1, hne, IsActive,
      h2, h3, h4, invoke, failed_MF_E_END_OF_STREAM]

theorem C10_requestSample_failure_witness :
    RequestSample okEnv shutStream World.start (some 11)
      = some (MF_E_SHUTDOWN, shutStream, World.start) ∧
    ∃ hr, RequestSample okEnv stoppedStream World.start (some 11) = some (hr, stoppedStream,
      { tick := 1, log := [.SourceQueueEvent .MEError MF_E_INVALIDREQUEST] }) :=
  ⟨(C10_requestSample_failure okEnv shutStream World.start (some 11)).1 rfl,
   (C10_requestSample_failure okEnv stoppedStream World.start (some 11)).2.1 rfl⟩

/-- C11 (scenario start/deliver/deliver/request/request), counterexample: with
collaborators that never fail, after `Start` the four calls make three
`AsyncRequestData` calls, not one. -/
theorem C11_need_data_three_times :
    ((Start okEnv stoppedStream World.start none).bind fun r =>
      (run okEnv [.deliverSample 1, .deliverSample 2, .requestSample (some 11),
        .requestSample (some 12)] r.2.1 r.2.2).map fun p =>
          needDataCount (p.2.log.drop r.2.2.log.length)) = some 3 := by
  decide

/-- C11 (scenario start/deliver/deliver/request/request), as amended: on an
active channel that is not shut down and not at end of stream, with empty
queues and collaborators and list insertions that never fail, `Start`
succeeds, and the four calls deliver S1, deliver S2, request R1, request R2
then add to the log exactly: `AsyncRequestData` (one sample buffered after S1);
nothing for S2; the token R1 set on S1, the `MEMediaSample` event with S1 and
`AsyncRequestData`; the token R2 set on S2, the `MEMediaSample` event with S2
and `AsyncRequestData`.  So two samples are handed over, S1 with R1 and then
S2 with R2, and `AsyncRequestData` is called three times. -/
theorem C11_scenario (env : Env) (s : FlvStream) (w : World) (v : Option Nat)
    (S1 S2 R1 R2 q : Nat)
    (hst : s.m_state ≠ .STATE_SHUTDOWN) (hact : s.activated = true) (heos : s.eos = false)
    (hrq : s.m_Requests = []) (hsq : s.m_Samples = []) (hq : s.event_queue = some q)
    (ha : env.allocOk) (hok : env.allOk) :
    ∃ s1 w1 s2 w2, Start env s w v = some (S_OK, s1, w1) ∧
      run env [.deliverSample S1, .deliverSample S2, .requestSample (some R1),
        .requestSample (some R2)] s1 w1 = some (s2, w2) ∧
      w2.log = w1.log ++ [.AsyncRequestData,
        .SetUnknown S1 R1, .QueueEventParamUnk .MEMediaSample S1, .AsyncRequestData,
        .SetUnknown S2 R2, .QueueEventParamUnk .MEMediaSample S2, .AsyncRequestData] ∧
      sampleReady (w2.log.drop w1.log.length) = [S1, S2] ∧
      needDataCount (w2.log.drop w1.log.length) = 3 := by
  obtain ⟨st, act, eos, rq, sq, eq, sd⟩ := s
  simp only at hst hact heos hrq hsq hq
  subst hact heos hrq hsq hq
  have hc := CheckShutdown_ok ⟨st, true, false, [], [], some q, sd⟩ hst
  have a0 := fun n => ha n
  have r0 := fun n c => hok n c
  refine ⟨⟨.STATE_STARTED, true, false, [], [], some q, sd⟩,
    ⟨w.tick + 2, w.log ++ [.QueueEventParamVar .MEStreamStarted S_OK v, .AsyncRequestData]⟩,
    ⟨.STATE_STARTED, true, false, [], [], some q, sd⟩,
    ⟨w.tick + 13, w.log ++ [.QueueEventParamVar .MEStreamStarted S_OK v, .AsyncRequestData]
      ++ [.AsyncRequestData,
        .SetUnknown S1 R1, .QueueEventParamUnk .MEMediaSample S1, .AsyncRequestData,
        .SetUnknown S2 R2, .QueueEventParamUnk .MEMediaSample S2, .AsyncRequestData]⟩,
    ?_, ?_, rfl, ?_, ?_⟩
  · simp [Start, QueueEvent, hc, succeeded_S_OK, sinkInvoke, invoke, DispatchSamples,
      dispatchLoop, dispatchTerminal, NeedsData, SAMPLE_QUEUE, dispatchDone, r0]
    simp [SUCCEEDED, FAILED] at r0 ⊢
    exact r0 _ _
  · simp [run, step, DeliverPayload, RequestSample, InsertBack, a0, CheckShutdown, IsActive,
      requestDone, failed_S_OK, succeeded_S_OK, sinkInvoke, invoke, DispatchSamples,
      dispatchLoop, dispatchTerminal, NeedsData, SAMPLE_QUEUE, dispatchDone, r0]
  · simp [sampleReady]
  · simp [needDataCount]

theorem C11_scenario_witness :
    ∃ s1 w1 s2 w2, Start okEnv stoppedStream World.start none = some (S_OK, s1, w1) ∧
      run okEnv [.deliverSample 1, .deliverSample 2, .requestSample (some 11),
        .requestSample (some 12)] s1 w1 = some (s2, w2) ∧
      w2.log = w1.log ++ [.AsyncRequestData,
        .SetUnknown 1 11, .QueueEventParamUnk .MEMediaSample 1, .AsyncRequestData,
        .SetUnknown 2 12, .QueueEventParamUnk .MEMediaSample 2, .AsyncRequestData] ∧
      sampleReady (w2.log.drop w1.log.length) = [1, 2] ∧
      needDataCount (w2.log.drop w1.log.length) = 3 :=
  C11_scenario okEnv stoppedStream World.start none 1 2 11 12 0 (by decide) rfl rfl rfl rfl rfl
    (fun _ => rfl) (fun _ _ => rfl)

/-- C12 (shutdown is terminal): the first `Shutdown` on a stream that is not
shut down returns `S_OK` and sets the state to shut down; after it every
sequence of public operations runs to its end and leaves the state shut down,
and in the state it reaches `Start`, `Pause`, `Stop` and `Shutdown` return
`MF_E_SHUTDOWN` and change neither the stream nor the world. -/
theorem C12_shutdown_terminal (env : Env) (s : FlvStream) (w : World) (ops : List Op)
    (hst : s.m_state ≠ .STATE_SHUTDOWN) :
    (Shutdown env s w).1 = S_OK ∧ (Shutdown env s w).2.1.m_state = .STATE_SHUTDOWN ∧
    ∃ s1 w1, run env ops (Shutdown env s w).2.1 (Shutdown env s w).2.2 = some (s1, w1) ∧
      s1.m_state = .STATE_SHUTDOWN ∧
      (∀ v, Start env s1 w1 v = some (MF_E_SHUTDOWN, s1, w1)) ∧
      Pause env s1 w1 = some (MF_E_SHUTDOWN, s1, w1) ∧
      Stop env s1 w1 = some (MF_E_SHUTDOWN, s1, w1) ∧
      Shutdown env s1 w1 = (MF_E_SHUTDOWN, s1, w1) := by
  obtain ⟨g1, g2⟩ := (Shutdown_frame env s w).2 hst
  have h0 : (Shutdown env s w).2.1.m_state = .STATE_SHUTDOWN := by rw [g2]
  obtain ⟨s1, w1, hr1, hs1⟩ := run_total env (fun s => s.m_state = .STATE_SHUTDOWN)
    (fun o s w hr s1 w1 h hi => step_keeps_shutdown env o s w hr s1 w1 h hi)
    (fun o s w hi => step_total env o s w (fun hne => absurd hi hne))
    ops (Shutdown env s w).2.1 (Shutdown env s w).2.2 h0
  refine ⟨g1, h0, s1, w1, hr1, hs1, ?_, ?_, ?_, ?_⟩
  · intro v
    simp [Start, CheckShutdown_shut s1 hs1, succeeded_MF_E_SHUTDOWN]
  · simp [Pause, CheckShutdown_shut s1 hs1, succeeded_MF_E_SHUTDOWN]
  · simp [Stop, CheckShutdown_shut s1 hs1, succeeded_MF_E_SHUTDOWN]
  · exact (Shutdown_frame env s1 w1).1 hs1

theorem C12_shutdown_terminal_witness :
    (Shutdown okEnv startedStream World.start).1 = S_OK ∧
    (Shutdown okEnv startedStream World.start).2.1.m_state = .STATE_SHUTDOWN ∧
    ∃ s1 w1, run okEnv [.deliverSample 1, .activate false, .start none, .endOfStream]
        (Shutdown okEnv startedStream World.start).2.1
        (Shutdown okEnv startedStream World.start).2.2 = some (s1, w1) ∧
      s1.m_state = .STATE_SHUTDOWN ∧
      (∀ v, Start okEnv s1 w1 v = some (MF_E_SHUTDOWN, s1, w1)) ∧
      Pause okEnv s1 w1 = some (MF_E_SHUTDOWN, s1, w1) ∧
      Stop okEnv s1 w1 = some (MF_E_SHUTDOWN, s1, w1) ∧
      Shutdown okEnv s1 w1 = (MF_E_SHUTDOWN, s1, w1) :=
  C12_shutdown_terminal okEnv startedStream World.start
    [.deliverSample 1, .activate false, .start none, .endOfStream] (by decide)

/-- C13 (stop contract), evaluated at the failing input: `Stop` on a started
channel holding three samples and two requests empties both queues, sets the
state to stopped and queues only the `MEStreamStopped` event; the
`RequestSample` issued next enqueues nothing and reports
`MF_E_INVALIDREQUEST` to the source, but returns the code of that report,
`S_OK`, not `MF_E_INVALIDREQUEST`. -/
theorem C13_request_after_stop_returns_sink_code :
    Stop okEnv loadedStream World.start
      = some (S_OK,
          { loadedStream with m_state := .STATE_STOPPED, m_Samples := [], m_Requests := [] },
          { tick := 1, log := [.QueueEventParamVar .MEStreamStopped S_OK none] }) ∧
    RequestSample okEnv
        { loadedStream with m_state := .STATE_STOPPED, m_Samples := [], m_Requests := [] }
        { tick := 1, log := [.QueueEventParamVar .MEStreamStopped S_OK none] } (some 12)
      = some (S_OK,
          { loadedStream with m_state := .STATE_STOPPED, m_Samples := [], m_Requests := [] },
          { tick := 2,
            log := [.QueueEventParamVar .MEStreamStopped S_OK none,
              .SourceQueueEvent .MEError MF_E_INVALIDREQUEST] }) ∧
    S_OK ≠ MF_E_INVALIDREQUEST := by
  decide

/-- C14 (getDescriptor around shutdown), evaluated at the failing input: on a
freshly constructed channel `GetStreamDescriptor` returns `S_OK` and the
descriptor given to the constructor; after `Shutdown` it returns
`E_UNEXPECTED`, not `MF_E_SHUTDOWN`, because the null test on
`stream_descriptor` comes before `CheckShutdown`. -/
theorem C14_descriptor_after_shutdown_unexpected :
    GetStreamDescriptor freshStream true = (S_OK, some 9) ∧
    (Shutdown okEnv freshStream freshWorld).1 = S_OK ∧
    GetStreamDescriptor (Shutdown okEnv freshStream freshWorld).2.1 true
      = (E_UNEXPECTED, none) ∧
    CheckShutdown (Shutdown okEnv freshStream freshWorld).2.1 = MF_E_SHUTDOWN ∧
    E_UNEXPECTED ≠ MF_E_SHUTDOWN := by
  decide

/-- C16 (terminal condition of a completed pass), counterexample: on a started,
active channel with no sample and an older request 10 pending, the request 11
succeeds and stays pending, but the sample delivered next is handed to the
older request 10, and 11 is still pending. -/
theorem C16_sample_goes_to_older_request :
    RequestSample okEnv waitingStream World.start (some 11)
      = some (S_OK, { waitingStream with m_Requests := [some 10, some 11] },
          { tick := 2, log := [.AsyncRequestData] }) ∧
    DeliverPayload okEnv { waitingStream with m_Requests := [some 10, some 11] }
        { tick := 2, log := [.AsyncRequestData] } 1
      = some (S_OK, { waitingStream with m_Requests := [some 11] },
          { tick := 6,
            log := [.AsyncRequestData, .SetUnknown 1 10,
              .QueueEventParamUnk .MEMediaSample 1, .AsyncRequestData] }) := by
  decide

/-- C16 (terminal condition of a completed pass), as amended.  For every
behaviour of the collaborators: first, on a started stream with an event
queue, a pass whose loop ends without failure makes after the loop exactly the
`MEEndOfStream` event and then `AsyncEndOfStream` when the sample queue is
empty and end of stream is latched; otherwise one `AsyncRequestData` when
`NeedsData` holds; otherwise nothing (followed by at most one error report).
Second, on a started, active stream not at end of stream with both queues
empty, a request R1 whose insertion succeeds returns `S_OK`, stays pending and
causes exactly one `AsyncRequestData` and no hand-over call; and when the
insertion of the following delivery of S1, the token attachment and the
`MEMediaSample` event do not fail, that delivery sets R1 on S1 and queues the
`MEMediaSample` event with S1, leaving both queues empty. -/
theorem C16_terminal_condition (env : Env) :
    (∀ (s : FlvStream) (w : World) (q : Nat) (r : LoopResult),
      s.m_state = .STATE_STARTED → s.event_queue = some q →
      dispatchLoop env (some q) s.m_Samples s.m_Requests S_OK w = some r →
      r.aborted = false →
      ∃ w1 tail errs, DispatchSamples env s w
          = some (S_OK, { s with m_Samples := r.samples, m_Requests := r.requests }, w1) ∧
        w1.log = r.world.log ++ tail ++ errs ∧
        (errs = [] ∨ ∃ c, errs = [.SourceQueueEvent .MEError c]) ∧
        (r.samples = [] ∧ s.eos = true →
          tail = [.QueueEventParamVar .MEEndOfStream S_OK none, .AsyncEndOfStream]) ∧
        (¬ (r.samples = [] ∧ s.eos = true) →
          NeedsData { s with m_Samples := r.samples, m_Requests := r.requests } = true →
          tail = [.AsyncRequestData]) ∧
        (¬ (r.samples = [] ∧ s.eos = true) →
          NeedsData { s with m_Samples := r.samples, m_Requests := r.requests } = false →
          tail = [])) ∧
    (∀ (s0 : FlvStream) (w0 : World) (q0 R1 S1 : Nat),
      s0.m_state = .STATE_STARTED → s0.activated = true → s0.eos = false →
      s0.m_Samples = [] → s0.m_Requests = [] → s0.event_queue = some q0 →
      FAILED (env.alloc w0.tick) = false →
      ∃ w1 add1,
        RequestSample env s0 w0 (some R1)
          = some (S_OK, { s0 with m_Requests := [some R1] }, w1) ∧
        w1.log = w0.log ++ add1 ∧ needDataCount add1 = 1 ∧ deliveryCalls add1 = [] ∧
        (FAILED (env.alloc w1.tick) = false →
          FAILED (env.reply (w1.tick + 1) (.SetUnknown S1 R1)) = false →
          FAILED (env.reply (w1.tick + 2) (.QueueEventParamUnk .MEMediaSample S1)) = false →
          ∃ w2 add2,
            DeliverPayload env { s0 with m_Requests := [some R1] } w1 S1
              = some (S_OK, s0, w2) ∧
            w2.log = w1.log ++ add2 ∧
            deliveryCalls add2
              = [.SetUnknown S1 R1, .QueueEventParamUnk .MEMediaSample S1] ∧
            sampleReady add2 = [S1])) := by
  constructor
  · intro s w q r hst hq hl hna
    obtain ⟨w1, e, _, na⟩ := DispatchSamples_of_loop env s w q r hst hq hl
    obtain ⟨errs, l, he⟩ := na hna
    refine ⟨w1, _, errs, e, l, he, ?_, ?_, ?_⟩
    · intro h
      simp [terminalCalls, h.1, h.2]
    · intro h hn
      have : ¬ ((r.samples.isEmpty && s.eos) = true) := by
        simpa [List.isEmpty_iff] using h
      simp [terminalCalls, this, hn]
    · intro h hn
      have : ¬ ((r.samples.isEmpty && s.eos) = true) := by
        simpa [List.isEmpty_iff] using h
      simp [terminalCalls, this, hn]
  · intro s0 w0 q0 R1 S1 h0 hact heos hsq hrq hq0 ha0
    obtain ⟨st, act, eos, rq, sq, eq, sd⟩ := s0
    simp only at h0 hact heos hsq hrq hq0
    subst h0 hact heos hsq hrq hq0
    obtain ⟨w1, e1, _, na1⟩ := DispatchSamples_of_loop env
      ⟨.STATE_STARTED, true, false, [some R1], [], some q0, sd⟩
      { w0 with tick := w0.tick + 1 } q0
      ⟨false, S_OK, [], [some R1], { w0 with tick := w0.tick + 1 }⟩ rfl rfl
      (by simp [dispatchLoop])
    obtain ⟨errs1, l1, he1⟩ := na1 rfl
    refine ⟨w1,
      terminalCalls ⟨.STATE_STARTED, true, false, [some R1], [], some q0, sd⟩ ++ errs1,
      ?_, by rw [l1]; simp, ?_, ?_, ?_⟩
    · rw [RequestSample_accepted env _ w0 (some R1) (by simp) (by simp) rfl (by simp) ha0]
      exact e1
    · rcases he1 with he | ⟨c, he⟩ <;> subst he <;>
        simp [needDataCount, terminalCalls, NeedsData, SAMPLE_QUEUE]
    · rcases he1 with he | ⟨c, he⟩ <;> subst he <;>
        simp [deliveryCalls, terminalCalls, NeedsData, SAMPLE_QUEUE, Call.isDelivery]
    · intro ha1 hs1 he1
      obtain ⟨w2, e2, _, na2⟩ := DispatchSamples_of_loop env
        ⟨.STATE_STARTED, true, false, [some R1], [S1], some q0, sd⟩
        { w1 with tick := w1.tick + 1 } q0
        ⟨false, env.reply (w1.tick + 2) (.QueueEventParamUnk .MEMediaSample S1), [], [],
          { tick := w1.tick + 3,
            log := w1.log ++ [.SetUnknown S1 R1, .QueueEventParamUnk .MEMediaSample S1] }⟩
        rfl rfl
        (by simp [dispatchLoop, invoke, sinkInvoke, hs1, he1])
      obtain ⟨errs2, l2, he2⟩ := na2 rfl
      refine ⟨w2,
        [.SetUnknown S1 R1, .QueueEventParamUnk .MEMediaSample S1]
          ++ terminalCalls ⟨.STATE_STARTED, true, false, [], [], some q0, sd⟩ ++ errs2,
        ?_, by rw [l2]; simp, ?_, ?_⟩
      · rw [DeliverPayload_accepted env _ w1 S1 ha1]
        exact e2
      · rcases he2 with he | ⟨c, he⟩ <;> subst he <;>
          simp [deliveryCalls, terminalCalls, NeedsData, SAMPLE_QUEUE, Call.isDelivery]
      · rcases he2 with he | ⟨c, he⟩ <;> subst he <;>
          simp [sampleReady, terminalCalls, NeedsData, SAMPLE_QUEUE]

theorem C16_terminal_condition_witness :
    (∃ w1 tail errs, DispatchSamples okEnv loadedStream World.start
        = some (S_OK, { loadedStream with m_Samples := [3], m_Requests := [] }, w1) ∧
      w1.log = [.SetUnknown 1 11, .QueueEventParamUnk .MEMediaSample 1,
          .QueueEventParamUnk .MEMediaSample 2] ++ tail ++ errs ∧
      (errs = [] ∨ ∃ c, errs = [.SourceQueueEvent .MEError c]) ∧
      (([3] : List Nat) = [] ∧ loadedStream.eos = true →
        tail = [.QueueEventParamVar .MEEndOfStream S_OK none, .AsyncEndOfStream]) ∧
      (¬ (([3] : List Nat) = [] ∧ loadedStream.eos = true) →
        NeedsData { loadedStream with m_Samples := [3], m_Requests := [] } = true →
        tail = [.AsyncRequestData]) ∧
      (¬ (([3] : List Nat) = [] ∧ loadedStream.eos = true) →
        NeedsData { loadedStream with m_Samples := [3], m_Requests := [] } = false →
        tail = [])) ∧
    (∃ w1 w2 add1 add2,
      RequestSample okEnv startedStream World.start (some 11)
        = some (S_OK, { startedStream with m_Requests := [some 11] }, w1) ∧
      w1.log = World.start.log ++ add1 ∧ needDataCount add1 = 1 ∧ deliveryCalls add1 = [] ∧
      DeliverPayload okEnv { startedStream with m_Requests := [some 11] } w1 1
        = some (S_OK, startedStream, w2) ∧
      w2.log = w1.log ++ add2 ∧
      deliveryCalls add2 = [.SetUnknown 1 11, .QueueEventParamUnk .MEMediaSample 1] ∧
      sampleReady add2 = [1]) := by
  constructor
  · exact (C16_terminal_condition okEnv).1 loadedStream World.start 0
      ⟨false, S_OK, [3], [],
        ⟨3, [.SetUnknown 1 11, .QueueEventParamUnk .MEMediaSample 1,
          .QueueEventParamUnk .MEMediaSample 2]⟩⟩
      rfl rfl (by decide) rfl
  · obtain ⟨w1, add1, e1, l1, n1, d1, rest⟩ :=
      (C16_terminal_condition okEnv).2 startedStream World.start 0 11 1
        rfl rfl rfl rfl rfl rfl rfl
    obtain ⟨w2, add2, e2, l2, d2, r2⟩ := rest rfl rfl rfl
    exact ⟨w1, w2, add1, add2, e1, l1, n1, d1, e2, l2, d2, r2⟩

/-- C17 (terminal condition after an aborted pass), counterexample: the token
attachment fails on the last sample of a channel at end of stream, and on the
only sample of an active channel; the queues are left empty, yet neither the
`MEEndOfStream` event nor `AsyncEndOfStream` nor `AsyncRequestData` follows:
the pass goes straight to the error report. -/
theorem C17_aborted_pass_no_terminal :
    EndOfStream (failAt 0) lastPairStream World.start
      = some (S_OK, { lastPairStream with m_Samples := [], m_Requests := [] },
          { tick := 2, log := [.SetUnknown 1 11, .SourceQueueEvent .MEError E_FAIL] }) ∧
    DeliverPayload (failAt 1) waitingStream World.start 1
      = some (S_OK, { waitingStream with m_Samples := [], m_Requests := [] },
          { tick := 3, log := [.SetUnknown 1 10, .SourceQueueEvent .MEError E_FAIL] }) ∧
    NeedsData { waitingStream with m_Samples := [], m_Requests := [] } = true := by
  decide

/-- C17 (terminal condition after an aborted pass), as amended: on a started
stream with an event queue, when the loop of a dispatch pass is left by a
failure, the pass skips the terminal block: after the calls of the loop its
only call is one `MEError` event on the source carrying the failure code, and
it returns `S_OK` with the queues as the loop left them. -/
theorem C17_aborted_pass_skips_terminal (env : Env) (s : FlvStream) (w : World) (q : Nat)
    (r : LoopResult) (hst : s.m_state = .STATE_STARTED) (hq : s.event_queue = some q)
    (hl : dispatchLoop env (some q) s.m_Samples s.m_Requests S_OK w = some r)
    (hab : r.aborted = true) :
    ∃ w1, DispatchSamples env s w
        = some (S_OK, { s with m_Samples := r.samples, m_Requests := r.requests }, w1) ∧
      FAILED r.hr = true ∧
      w1.log = r.world.log ++ [.SourceQueueEvent .MEError r.hr] := by
  obtain ⟨w1, e, ab, _⟩ := DispatchSamples_of_loop env s w q r hst hq hl
  exact ⟨w1, e, (ab hab).1, (ab hab).2⟩

theorem C17_aborted_pass_skips_terminal_witness :
    ∃ w1, DispatchSamples (failAt 0) lastPairStream World.start
        = some (S_OK, { lastPairStream with m_Samples := [], m_Requests := [] }, w1) ∧
      FAILED E_FAIL = true ∧
      w1.log = [.SetUnknown 1 11] ++ [.SourceQueueEvent .MEError E_FAIL] :=
  C17_aborted_pass_skips_terminal (failAt 0) lastPairStream World.start 0
    ⟨true, E_FAIL, [], [], ⟨1, [.SetUnknown 1 11]⟩⟩ rfl rfl (by decide) rfl

/-- C18 (sink safety after teardown): from a construction that created the
event queue, every sequence of public operations runs to its end without a
call through a null event queue, under any behaviour of the collaborators, and
in the state it reaches the event queue is null exactly when the state is shut
down. -/
theorem C18_sink_safety (env : Env) (pSD : Nat) (w0 : World) (ops : List Op)
    (hc : FAILED (construct env pSD w0).1 = false) :
    ∃ s w, run env ops (construct env pSD w0).2.1 (construct env pSD w0).2.2 = some (s, w) ∧
      (s.event_queue = none ↔ s.m_state = .STATE_SHUTDOWN) := by
  have h0 : SinkInv (construct env pSD w0).2.1 := by
    simp only [construct] at hc
    simp [SinkInv, construct, hc]
  have tot : ∀ (o : Op) (s : FlvStream) (w : World), SinkInv s →
      ∃ x, step env o s w = some x := by
    intro o s w hi
    apply step_total
    intro hne
    cases hq : s.event_queue with
    | none => exact absurd (hi.1 hq) hne
    | some q => exact ⟨q, rfl⟩
  obtain ⟨s, w, hr, hi⟩ := run_total env SinkInv
    (fun o s w hr s1 w1 h hi => step_SinkInv env o s w hr s1 w1 h hi) tot ops _ _ h0
  exact ⟨s, w, hr, hi⟩

theorem C18_sink_safety_witness :
    ∃ s w, run okEnv [.start none, .shutdown, .deliverSample 1, .getEvent 0, .pause,
        .endOfStream, .queueEvent .MEError S_OK none]
        (construct okEnv 9 World.start).2.1 (construct okEnv 9 World.start).2.2 = some (s, w) ∧
      (s.event_queue = none ↔ s.m_state = .STATE_SHUTDOWN) :=
  C18_sink_safety okEnv 9 World.start
    [.start none, .shutdown, .deliverSample 1, .getEvent 0, .pause, .endOfStream,
      .queueEvent .MEError S_OK none] rfl

/-- C20 (pending requests imply a live, selected channel): in every state
reached from a freshly constructed channel by public operations, under any
behaviour of the collaborators, a stream with a non-empty request queue is
active and its state is started or paused. -/
theorem C20_pending_requests_live (env : Env) (pSD : Nat) (w0 : World) (ops : List Op)
    (s : FlvStream) (w : World)
    (hrun : run env ops (construct env pSD w0).2.1 (construct env pSD w0).2.2 = some (s, w))
    (hne : s.m_Requests ≠ []) :
    s.activated = true ∧ (s.m_state = .STATE_STARTED ∨ s.m_state = .STATE_PAUSED) := by
  have h0 : LiveInv (construct env pSD w0).2.1 := by
    intro h
    simp [construct] at h
  exact run_invariant env LiveInv
    (fun o s w hr s1 w1 h hi => step_LiveInv env o s w hr s1 w1 h hi)
    ops _ _ s w hrun h0 hne

theorem C20_pending_requests_live_witness :
    true = true ∧
      (StreamState.STATE_PAUSED = .STATE_STARTED ∨ StreamState.STATE_PAUSED = .STATE_PAUSED) :=
  C20_pending_requests_live okEnv 9 World.start
    [.activate true, .pause, .requestSample (some 11)]
    { m_state := .STATE_PAUSED, activated := true, eos := false, m_Requests := [some 11],
      m_Samples := [], event_queue := some 0, stream_descriptor := some 9 }
    { tick := 3,
      log := [.MFCreateEventQueue, .QueueEventParamVar .MEStreamPaused S_OK none] }
    (by decide) (by decide)

end FlvSource
